import Mathlib

/-!
Shallow embedding of the timestamp-handling core of the ffmpeg transcoding
pipeline: the decoder stage (fftools/ffmpeg_dec.c), the demuxer stage
(fftools/ffmpeg_demux.c) and the output sync-queue wiring
(fftools/ffmpeg_mux_init.c), together with proofs about their behaviour.

Machine integers are modelled as unbounded `Int` with the sentinel values
(`AV_NOPTS_VALUE` = INT64_MIN, `INT64_MAX`, `INT_MAX`) kept as explicit
constants; saturation of `av_rescale_*` on 64-bit overflow is not modelled
(all statements below stay far from the overflow range, and the explicit
`INT_MAX` overflow check of `audio_samplerate_update` is carried over
verbatim).  C integer division (truncation toward zero) is `Int.tdiv`,
C `%` on the nonnegative operands appearing here is `Int.emod`.
-/

namespace FFmpeg

/-- A rational time base, `AVRational { num, den }`. -/
structure AVRational where
  num : Int
  den : Int
deriving DecidableEq, Repr

/-- The `AV_NOPTS_VALUE` = INT64_MIN, the "no timestamp" sentinel. -/
def AV_NOPTS_VALUE : Int := -9223372036854775808

def INT64_MAX : Int := 9223372036854775807

def INT_MAX : Int := 2147483647

/-- The `AV_TIME_BASE`: one second in the canonical internal time base. -/
def AV_TIME_BASE : Int := 1000000

/-- The `AV_TIME_BASE_Q = {1, AV_TIME_BASE}`. -/
def AV_TIME_BASE_Q : AVRational := ⟨1, 1000000⟩

/-- The rounding modes of `av_rescale_rnd` (spec §4.1: Zero, Inf, Down, Up,
NearInf; PassMinmax is a separate flag, see `av_rescale_rnd`). -/
inductive AVRounding where
  | zero
  | inf
  | down
  | up
  | nearInf
deriving DecidableEq, Repr

/-- Rounded integer division `n / d` for `d > 0` under an `AVRounding` mode:
floor, ceil, toward zero, away from zero, or nearest with halves away from
zero. -/
def roundDiv (n d : Int) : AVRounding → Int
  | .down => Int.fdiv n d
  | .up => -(Int.fdiv (-n) d)
  | .zero => Int.tdiv n d
  | .inf => if 0 ≤ n then -(Int.fdiv (-n) d) else Int.fdiv n d
  | .nearInf =>
      if 0 ≤ n then Int.fdiv (2 * n + d) (2 * d)
      else -(Int.fdiv (2 * (-n) + d) (2 * d))

/-- Modelled from the spec: `av_rescale_rnd` (libavutil, not under src/) —
`rescale(t, …, rounding)` from §4.1: computes `a*b/c` under the given
rounding mode; when the PassMinmax flag is set, INT64_MIN (= NOPTS) and
INT64_MAX pass through unchanged.  Saturation on overflow is not modelled. -/
def av_rescale_rnd (a b c : Int) (rnd : AVRounding) (passMinmax : Bool) : Int :=
  if passMinmax ∧ (a = AV_NOPTS_VALUE ∨ a = INT64_MAX) then a
  else roundDiv (a * b) c rnd

/-- Modelled from the spec: `av_rescale_q_rnd` — rescale `a` from time base
`bq` to time base `cq` under a rounding mode. -/
def av_rescale_q_rnd (a : Int) (bq cq : AVRational) (rnd : AVRounding)
    (passMinmax : Bool) : Int :=
  av_rescale_rnd a (bq.num * cq.den) (cq.num * bq.den) rnd passMinmax

/-- Modelled from the spec: `av_rescale_q` — rescale with rounding to nearest,
halves away from zero. -/
def av_rescale_q (a : Int) (bq cq : AVRational) : Int :=
  av_rescale_q_rnd a bq cq .nearInf false

/-- Modelled from the spec: `av_rescale a b c = a * b / c` rounded to
nearest. -/
def av_rescale (a b c : Int) : Int :=
  av_rescale_rnd a b c .nearInf false

/-- Modelled from the spec: `av_gcd` (§4.1 `gcd/reduce`), on the nonnegative
values used here. -/
def av_gcd (a b : Int) : Int :=
  Int.gcd a b

/-- Modelled from the spec: `av_compare_ts` (§4.1 `compare`) — compare two
timestamps under their time bases by cross-multiplication; -1, 0 or 1. -/
def av_compare_ts (ts_a : Int) (tb_a : AVRational) (ts_b : Int)
    (tb_b : AVRational) : Int :=
  let x := ts_a * (tb_a.num * tb_b.den)
  let y := ts_b * (tb_b.num * tb_a.den)
  if x < y then -1 else if y < x then 1 else 0

/-- Modelled from the spec: `av_inv_q` — invert a rational. -/
def av_inv_q (q : AVRational) : AVRational :=
  ⟨q.den, q.num⟩

/-- Modelled from the spec: `av_reduce` (§4.1 `gcd/reduce`) — reduce a
fraction to lowest terms with a positive denominator (the INT_MAX clipping
of the C version is not modelled; all values used here are small). -/
def av_reduce (n d : Int) : AVRational :=
  if n = 0 then ⟨0, 1⟩
  else
    let g : Int := Int.gcd n d
    let s : Int := if d < 0 then -1 else 1
    ⟨s * Int.tdiv n g, s * Int.tdiv d g⟩

/-- Modelled from the spec: `av_mul_q` — multiply two rationals, reduced. -/
def av_mul_q (b c : AVRational) : AVRational :=
  av_reduce (b.num * c.num) (b.den * c.den)

/-- Median of three values (`mid_pred`). -/
def av_mid_pred (a b c : Int) : Int :=
  max (min a b) (min (max a b) c)

/-- Modelled from the spec: `av_rescale_delta` (§4.1 `rescale_delta`,
libavutil, not under src/) — stateful rescale for audio: the accumulator
`last` keeps successive samples contiguous across non-exact rescales and is
re-seeded (the "simple" path) whenever it is NOPTS (the caller signals a gap
by resetting it), the duration is zero, or the input time base is at least
as coarse as the output one.  Returns the rescaled timestamp together with
the new accumulator. -/
def av_rescale_delta (in_tb : AVRational) (in_ts : Int) (fs_tb : AVRational)
    (duration : Int) (last : Int) (out_tb : AVRational) : Int × Int :=
  let simple : Int × Int :=
    (av_rescale_q in_ts in_tb out_tb, av_rescale_q in_ts in_tb fs_tb + duration)
  if last = AV_NOPTS_VALUE ∨ duration = 0 ∨
      in_tb.num * out_tb.den ≤ out_tb.num * in_tb.den then simple
  else
    let a := Int.fdiv (av_rescale_q_rnd (2 * in_ts - 1) in_tb fs_tb .down false) 2
    let b := Int.fdiv (av_rescale_q_rnd (2 * in_ts + 1) in_tb fs_tb .up false + 1) 2
    if last < 2 * a - b ∨ 2 * b - a < last then simple
    else
      let t := av_mid_pred last a b
      (av_rescale_q t fs_tb out_tb, t + duration)

/-! ## Decoder stage: frames and per-stream state (fftools/ffmpeg_dec.c) -/

/-- The media types relevant to the embedded code. -/
inductive MediaType where
  | video
  | audio
  | subtitle
  | data
  | attachment
  | unknown
deriving DecidableEq, Repr

/-- The fields of `AVFrame` read or written by the embedded decoder-stage
code. -/
structure AVFrame where
  pts : Int
  duration : Int
  time_base : AVRational
  nb_samples : Int
  sample_rate : Int
  repeat_pict : Int
  best_effort_timestamp : Int
  sample_aspect_ratio : AVRational
  flag_top_field_first : Bool
deriving DecidableEq, Repr

/-- The decoder-stage per-stream state: the `InputStream` fields used by
`audio_samplerate_update` / `audio_ts_process` / `decode_audio` /
`video_duration_estimate` / `decode_video`, plus the codec/stream/file
parameters those functions read (`ist->dec_ctx`, `ist->st`,
`input_files[ist->file_index]`). -/
structure InputStreamDec where
  codec_type : MediaType
  last_frame_sample_rate : Int
  last_frame_tb : AVRational
  last_frame_pts : Int
  last_frame_duration_est : Int
  filter_in_rescale_delta_last : Int
  samples_decoded : Int
  frames_decoded : Int
  nb_samples : Int
  decode_errors : Int
  /-- `ist->framerate`: user-forced framerate (num 0 when unset). -/
  framerate : AVRational
  /-- `ist->dec_ctx->framerate`: codec-layer framerate. -/
  dec_framerate : AVRational
  /-- `ist->st->avg_frame_rate`. -/
  avg_frame_rate : AVRational
  /-- `ist->st->sample_aspect_ratio`. -/
  st_sample_aspect_ratio : AVRational
  /-- `ist->top_field_first` (negative when unset). -/
  top_field_first : Int
  /-- `ist->dec_ctx->pkt_timebase`. -/
  pkt_timebase : AVRational
  /-- `input_files[ist->file_index]->format_nots`: container lacks
  timestamps. -/
  format_nots : Bool
deriving DecidableEq, Repr

/-- The samplerate-derived candidate for the new internal audio time base
(`audio_samplerate_update`, lines computing `tb_new` before the
frame-time-base preference): `1 / (prev/gcd * sr)`, or `1/28224000` when
`prev/gcd >= INT_MAX/sr` (the product would overflow a 32-bit int). -/
def audio_tb_candidate (prev sr : Int) : AVRational :=
  let g := av_gcd prev sr
  if INT_MAX.tdiv sr ≤ prev.tdiv g then ⟨1, 28224000⟩
  else ⟨1, prev.tdiv g * sr⟩

/-- The frame-time-base preference of `audio_samplerate_update`: keep the
frame's own time base instead of the candidate when its numerator is 1, its
denominator is strictly larger, and the candidate's denominator divides it
(`!(frame->time_base.den % tb_new.den)`). -/
def audio_tb_prefer_frame (frame_tb tb_new : AVRational) : AVRational :=
  if frame_tb.num = 1 ∧ tb_new.den < frame_tb.den ∧
      frame_tb.den % tb_new.den = 0 then frame_tb
  else tb_new

/-- The `audio_samplerate_update` (ffmpeg_dec.c): on a sample-rate change choose
a new internal time base and rescale `last_frame_pts` (when not NOPTS) and
`last_frame_duration_est` into it; otherwise return the current one
unchanged.  Returns the chosen time base and the updated state. -/
def audio_samplerate_update (ist : InputStreamDec) (frame : AVFrame) :
    AVRational × InputStreamDec :=
  if frame.sample_rate = ist.last_frame_sample_rate then
    (ist.last_frame_tb, ist)
  else
    let tb_new := audio_tb_prefer_frame frame.time_base
      (audio_tb_candidate ist.last_frame_tb.den frame.sample_rate)
    let lfp := if ist.last_frame_pts ≠ AV_NOPTS_VALUE then
        av_rescale_q ist.last_frame_pts ist.last_frame_tb tb_new
      else ist.last_frame_pts
    let ldur := av_rescale_q ist.last_frame_duration_est ist.last_frame_tb tb_new
    (tb_new, { ist with
        last_frame_pts := lfp
        last_frame_duration_est := ldur
        last_frame_tb := tb_new
        last_frame_sample_rate := frame.sample_rate })

/-- The predicted pts of `audio_ts_process`:
`last_frame_pts == NOPTS ? 0 : last_frame_pts + last_frame_duration_est`. -/
def audio_pts_pred (ist : InputStreamDec) : Int :=
  if ist.last_frame_pts = AV_NOPTS_VALUE then 0
  else ist.last_frame_pts + ist.last_frame_duration_est

/-- The pts-synthesis / gap-detection step of `audio_ts_process` (the
`if (frame->pts == AV_NOPTS_VALUE) … else if …` block): a frame without pts
gets `pts_pred` and the internal time base; a frame whose pts jumps past
`pts_pred` (rounded up into the frame's time base) resets
`filter_in_rescale_delta_last` to NOPTS. -/
def audio_ts_gap_step (ist : InputStreamDec) (frame : AVFrame)
    (tb : AVRational) (pts_pred : Int) : AVFrame × InputStreamDec :=
  if frame.pts = AV_NOPTS_VALUE then
    ({ frame with pts := pts_pred, time_base := tb }, ist)
  else if ist.last_frame_pts ≠ AV_NOPTS_VALUE ∧
      av_rescale_q_rnd pts_pred tb frame.time_base .up false < frame.pts then
    (frame, { ist with filter_in_rescale_delta_last := AV_NOPTS_VALUE })
  else
    (frame, ist)

/-- The `audio_ts_process` (ffmpeg_dec.c): full audio timestamp post-processing
of one decoded frame.  Returns the processed frame and the updated state. -/
def audio_ts_process (ist : InputStreamDec) (frame : AVFrame) :
    AVFrame × InputStreamDec :=
  let tb_filter : AVRational := ⟨1, frame.sample_rate⟩
  let u := audio_samplerate_update ist frame
  let tb := u.1
  let ist1 := u.2
  let pts_pred := audio_pts_pred ist1
  let gs := audio_ts_gap_step ist1 frame tb pts_pred
  let frame1 := gs.1
  let ist2 := gs.2
  let r := av_rescale_delta frame1.time_base frame1.pts tb frame1.nb_samples
    ist2.filter_in_rescale_delta_last tb
  let frame2 := { frame1 with pts := r.1 }
  let ist3 := { ist2 with
      filter_in_rescale_delta_last := r.2
      last_frame_pts := frame2.pts
      last_frame_duration_est := av_rescale_q frame2.nb_samples tb_filter tb }
  let frame3 := { frame2 with
      pts := av_rescale_q frame2.pts tb tb_filter
      duration := frame2.nb_samples
      time_base := tb_filter }
  (frame3, ist3)

/-- The `decode_audio` (ffmpeg_dec.c), the state-relevant part: counters,
`audio_ts_process`, `ist->nb_samples`; the processed frame is handed to the
filter inputs (the filter graph is an external collaborator, modelled as
accepting every frame).  Returns the updated state and the frame sent
downstream. -/
def decode_audio (ist : InputStreamDec) (frame : AVFrame) :
    InputStreamDec × AVFrame :=
  let ist0 := { ist with
      samples_decoded := ist.samples_decoded + frame.nb_samples
      frames_decoded := ist.frames_decoded + 1 }
  let r := audio_ts_process ist0 frame
  ({ r.2 with nb_samples := r.1.nb_samples }, r.1)

/-- The `codec_duration` of `video_duration_estimate`: `(repeat_pict+2)`
fields at twice the codec framerate, rescaled to the frame's time base;
0 when the codec framerate is unknown. -/
def video_codec_duration (ist : InputStreamDec) (frame : AVFrame) : Int :=
  if ist.dec_framerate.den ≠ 0 ∧ ist.dec_framerate.num ≠ 0 then
    let fields := frame.repeat_pict + 2
    let field_rate := av_mul_q ist.dec_framerate ⟨2, 1⟩
    av_rescale_q fields (av_inv_q field_rate) frame.time_base
  else 0

/-- The average-framerate fallback of `video_duration_estimate`: one frame
at `avg_frame_rate` rescaled to the frame's time base; 0 when the average
framerate is unknown. -/
def video_avg_duration (ist : InputStreamDec) (frame : AVFrame) : Int :=
  if ist.avg_frame_rate.num ≠ 0 ∧ ist.avg_frame_rate.den ≠ 0 then
    av_rescale_q 1 (av_inv_q ist.avg_frame_rate) frame.time_base
  else 0

/-- The `video_duration_estimate` function (ffmpeg_dec.c): per-frame
duration estimate for video, a deterministic priority chain. -/
def video_duration_estimate (ist : InputStreamDec) (frame : AVFrame) : Int :=
  -- prefer frame duration for containers with timestamps
  if 0 < frame.duration ∧ (¬ist.format_nots ∨ ist.framerate.num ≠ 0) then
    frame.duration
  else
    let codec_duration := video_codec_duration ist frame
    -- prefer codec-layer duration for containers without timestamps
    if 0 < codec_duration ∧ ist.format_nots then codec_duration
    -- when timestamps are available, repeat last frame's actual duration
    else if frame.pts ≠ AV_NOPTS_VALUE ∧ ist.last_frame_pts ≠ AV_NOPTS_VALUE ∧
        ist.last_frame_pts < frame.pts then
      frame.pts - ist.last_frame_pts
    -- try frame/codec duration
    else if 0 < frame.duration then frame.duration
    else if 0 < codec_duration then codec_duration
    else
      -- try average framerate
      let d := video_avg_duration ist frame
      if 0 < d then d
      -- last resort is last frame's estimated duration, and 1
      else max ist.last_frame_duration_est 1

/-- The `decode_video` (ffmpeg_dec.c), the timestamp-relevant part: top-field
override, pts from `best_effort_timestamp`, forced-framerate override,
extrapolation of a missing pts, timestamp-history update, SAR override.
Hardware-accelerated surface download is out of the spec's scope and the
frames here are software frames.  Returns the updated state and the frame
sent downstream. -/
def decode_video (ist : InputStreamDec) (frame : AVFrame) :
    InputStreamDec × AVFrame :=
  let frame := if 0 ≤ ist.top_field_first then
      { frame with flag_top_field_first := true } else frame
  let ist := { ist with frames_decoded := ist.frames_decoded + 1 }
  let frame := { frame with pts := frame.best_effort_timestamp }
  -- forced fixed framerate
  let frame := if ist.framerate.num ≠ 0 then
      { frame with pts := AV_NOPTS_VALUE, duration := 1,
                   time_base := av_inv_q ist.framerate }
    else frame
  -- no timestamp available - extrapolate from previous frame duration
  let frame := if frame.pts = AV_NOPTS_VALUE then
      { frame with pts := if ist.last_frame_pts = AV_NOPTS_VALUE then 0
          else ist.last_frame_pts + ist.last_frame_duration_est }
    else frame
  -- update timestamp history
  let ist := { ist with
      last_frame_duration_est := video_duration_estimate ist frame
      last_frame_pts := frame.pts
      last_frame_tb := frame.time_base }
  let frame := if ist.st_sample_aspect_ratio.num ≠ 0 then
      { frame with sample_aspect_ratio := ist.st_sample_aspect_ratio }
    else frame
  (ist, frame)

/-! ## Decoder stage: `dec_packet` (fftools/ffmpeg_dec.c)

The codec is an external collaborator (`send_packet` / `receive_frame`);
its behaviour on one `dec_packet` call is modelled as the value returned by
`avcodec_send_packet` plus the finite sequence of `avcodec_receive_frame`
outcomes the receive loop will observe. -/

/-- The `AVERROR_EOF` = FFERRTAG(0xF8,'E','O','F'). -/
def AVERROR_EOF : Int := -541478725

/-- The `AVERROR(EAGAIN)` on Linux. -/
def AVERROR_EAGAIN : Int := -11

/-- The `AVERROR(EINVAL)`. -/
def AVERROR_EINVAL : Int := -22

/-- One outcome of `avcodec_receive_frame`. -/
inductive RecvStep where
  | frame (f : AVFrame)
  | again
  | eof
  | err (e : Int)
deriving DecidableEq, Repr

/-- The codec black box's behaviour during one `dec_packet` call. -/
structure CodecBehavior where
  /-- Return value of `avcodec_send_packet`. -/
  send_ret : Int
  /-- Successive outcomes of `avcodec_receive_frame`. -/
  recv : List RecvStep
  /-- Return value of the subtitle path (`transcode_subtitles`), an external
  operation for the purposes of the claims below. -/
  subtitle_ret : Int
deriving Repr

/-- Observable downstream effects of one `dec_packet` call. -/
inductive DecEvent where
  /-- A decoded frame pushed to every filter input of the stream. -/
  | frame_out (f : AVFrame)
  /-- EOF propagated to the filter inputs (`send_filter_eof`). -/
  | filter_eof
  /-- The subtitle path was taken. -/
  | subtitle
deriving DecidableEq, Repr

/-- The `avcodec_receive_frame` loop of `dec_packet`: drain frames until
EAGAIN (return 0), EOF (propagate EOF to filters unless `no_eof`, return
`AVERROR_EOF`) or a decoding error. -/
def dec_receive_loop (ist : InputStreamDec) (evs : List DecEvent)
    (no_eof : Bool) : List RecvStep → Int × InputStreamDec × List DecEvent
  | [] => (0, ist, evs)
  | .again :: _ => (0, ist, evs)
  | .eof :: _ =>
      if no_eof then (AVERROR_EOF, ist, evs)
      else (AVERROR_EOF, ist, evs ++ [.filter_eof])
  | .err e :: _ => (e, { ist with decode_errors := ist.decode_errors + 1 }, evs)
  | .frame f :: rest =>
      let f := { f with time_base := ist.pkt_timebase }
      let r := if ist.codec_type = .audio then decode_audio ist f
        else decode_video ist f
      dec_receive_loop r.1 (evs ++ [.frame_out r.2]) no_eof rest

/-- The `dec_packet` (ffmpeg_dec.c): submit one packet (or EOF, when `pkt` is
`none`) to the decoder and drain the resulting frames.  A packet is modelled
by its payload size, the only field `dec_packet` itself inspects.  Returns
the result code, the updated per-stream state, and the downstream events. -/
def dec_packet (ist : InputStreamDec) (cb : CodecBehavior)
    (pkt : Option Nat) (no_eof : Bool) : Int × InputStreamDec × List DecEvent :=
  if ist.codec_type = .subtitle then (cb.subtitle_ret, ist, [.subtitle])
  else
    match pkt with
    | some sz =>
        -- 0-sized packets before EOF: don't trigger EOF, skip the packet
        if sz = 0 then (0, ist, [])
        else
          if cb.send_ret < 0 then
            (cb.send_ret,
             if cb.send_ret ≠ AVERROR_EOF then
               { ist with decode_errors := ist.decode_errors + 1 }
             else ist, [])
          else dec_receive_loop ist [] no_eof cb.recv
    | none =>
        if cb.send_ret < 0 ∧ cb.send_ret ≠ AVERROR_EOF then
          (cb.send_ret,
           { ist with decode_errors := ist.decode_errors + 1 }, [])
        else dec_receive_loop ist [] no_eof cb.recv

/-! ## Demuxer stage (fftools/ffmpeg_demux.c) -/

/-- The fields of `AVPacket` used by the embedded demuxer code. -/
structure AVPacket where
  pts : Int
  dts : Int
  duration : Int
  time_base : AVRational
deriving DecidableEq, Repr

/-- A timestamp tagged with its time base (`Timestamp` in ffmpeg_demux.c). -/
structure Timestamp where
  ts : Int
  tb : AVRational
deriving DecidableEq, Repr

/-- The global options read by the embedded demuxer code.  The thresholds
are modelled as whole seconds (the C globals are floats with integral
defaults 10 and 30). -/
structure Globals where
  copy_ts : Bool
  start_at_zero : Bool
  dts_delta_threshold : Int
  dts_error_threshold : Int
deriving DecidableEq, Repr

/-- Per-demuxer state (`Demuxer` / `InputFile`) used by the timestamp
fix-up. -/
structure DemuxState where
  /-- `ifile->ctx->iformat->flags & AVFMT_TS_DISCONT`. -/
  fmt_is_discont : Bool
  ts_offset_discont : Int
  last_ts : Int
  /-- `ifile->start_time_effective`. -/
  start_time_effective : Int
  /-- `ifile->ts_offset`. -/
  ts_offset : Int
  /-- `d->duration`: total duration of prior `-stream_loop` iterations. -/
  duration : Timestamp
  max_pts : Timestamp
  min_pts : Timestamp
  have_audio_dec : Bool
deriving DecidableEq, Repr

/-- Per-stream demuxer state (`DemuxStream` / `InputStream`) used by the
timestamp fix-up.  `ts_scale` is modelled as an integer factor (the C field
is a double set from the user's `-itsscale`). -/
structure DStream where
  codec_type : MediaType
  st_time_base : AVRational
  pts_wrap_bits : Nat
  wrap_correction_done : Bool
  ts_scale : Int
  saw_first_ts : Bool
  first_dts : Int
  dts : Int
  next_dts : Int
  avg_frame_rate : AVRational
  video_delay : Int
  /-- `ist->framerate`: user-forced framerate. -/
  framerate : AVRational
  /-- `ist->par->framerate`. -/
  par_framerate : AVRational
  par_sample_rate : Int
  par_frame_size : Int
  /-- Whether the codec descriptor has `AV_CODEC_PROP_FIELDS` and a parser
  is attached; in that case `parser_repeat_pict` is the parser's
  `repeat_pict`. -/
  has_parser_fields : Bool
  parser_repeat_pict : Int
deriving DecidableEq, Repr

/-- The `ts_discontinuity_detect`, computation of
`disable_discontinuity_correction`: `copy_ts`, except that under `copy_ts`
on a discontinuous container with small wrap bits, a delta that shrinks by
a factor ten after adding one wrap period re-enables the correction. -/
def disable_disc_correction (g : Globals) (d : DemuxState) (ds : DStream)
    (pkt : AVPacket) : Bool :=
  let pkt_dts := av_rescale_q_rnd pkt.dts pkt.time_base AV_TIME_BASE_Q
    .nearInf true
  if g.copy_ts ∧ ds.next_dts ≠ AV_NOPTS_VALUE ∧ d.fmt_is_discont ∧
      ds.pts_wrap_bits < 60 then
    let wrap_dts := av_rescale_q_rnd (pkt.dts + 2 ^ ds.pts_wrap_bits)
      pkt.time_base AV_TIME_BASE_Q .nearInf true
    if |wrap_dts - ds.next_dts| < (|pkt_dts - ds.next_dts|).tdiv 10 then false
    else g.copy_ts
  else g.copy_ts

/-- The `ts_discontinuity_detect` (ffmpeg_demux.c): detect a timestamp
discontinuity against the per-stream `next_dts` prediction, correcting
through `ts_offset_discont` on containers marked `AVFMT_TS_DISCONT` and
nulling divergent timestamps otherwise.  Returns the possibly-modified
packet and demuxer state. -/
def ts_discontinuity_detect (g : Globals) (d : DemuxState) (ds : DStream)
    (pkt : AVPacket) : AVPacket × DemuxState :=
  let pkt_dts := av_rescale_q_rnd pkt.dts pkt.time_base AV_TIME_BASE_Q
    .nearInf true
  let disable := disable_disc_correction g d ds pkt
  let r :=
    if ds.next_dts ≠ AV_NOPTS_VALUE ∧ disable = false then
      let delta := pkt_dts - ds.next_dts
      if d.fmt_is_discont then
        if g.dts_delta_threshold * AV_TIME_BASE < |delta| ∨
            pkt_dts + AV_TIME_BASE.tdiv 10 < ds.dts then
          let off := av_rescale_q delta AV_TIME_BASE_Q pkt.time_base
          ({ pkt with
              dts := pkt.dts - off
              pts := if pkt.pts ≠ AV_NOPTS_VALUE then pkt.pts - off
                else pkt.pts },
           { d with ts_offset_discont := d.ts_offset_discont - delta })
        else (pkt, d)
      else
        let pkt :=
          if g.dts_error_threshold * AV_TIME_BASE < |delta| then
            { pkt with dts := AV_NOPTS_VALUE }
          else pkt
        let pkt :=
          if pkt.pts ≠ AV_NOPTS_VALUE then
            let pkt_pts := av_rescale_q pkt.pts pkt.time_base AV_TIME_BASE_Q
            if g.dts_error_threshold * AV_TIME_BASE < |pkt_pts - ds.next_dts|
            then { pkt with pts := AV_NOPTS_VALUE }
            else pkt
          else pkt
        (pkt, d)
    else if ds.next_dts = AV_NOPTS_VALUE ∧ ¬g.copy_ts ∧ d.fmt_is_discont ∧
        d.last_ts ≠ AV_NOPTS_VALUE then
      let delta := pkt_dts - d.last_ts
      if g.dts_delta_threshold * AV_TIME_BASE < |delta| then
        let off := av_rescale_q delta AV_TIME_BASE_Q pkt.time_base
        ({ pkt with
            dts := pkt.dts - off
            pts := if pkt.pts ≠ AV_NOPTS_VALUE then pkt.pts - off
              else pkt.pts },
         { d with ts_offset_discont := d.ts_offset_discont - delta })
      else (pkt, d)
    else (pkt, d)
  (r.1,
   { r.2 with last_ts := av_rescale_q r.1.dts r.1.time_base AV_TIME_BASE_Q })

/-- The `ts_discontinuity_process` (ffmpeg_demux.c): apply the
previously-detected offset `ts_offset_discont` to every stream's packets,
then run discontinuity detection for audio/video packets with a dts. -/
def ts_discontinuity_process (g : Globals) (d : DemuxState) (ds : DStream)
    (pkt : AVPacket) : AVPacket × DemuxState :=
  let offset := av_rescale_q d.ts_offset_discont AV_TIME_BASE_Q pkt.time_base
  let pkt := { pkt with
      dts := if pkt.dts ≠ AV_NOPTS_VALUE then pkt.dts + offset else pkt.dts
      pts := if pkt.pts ≠ AV_NOPTS_VALUE then pkt.pts + offset else pkt.pts }
  if (ds.codec_type = .video ∨ ds.codec_type = .audio) ∧
      pkt.dts ≠ AV_NOPTS_VALUE then
    ts_discontinuity_detect g d ds pkt
  else (pkt, d)

/-- The `ist_dts_update` (ffmpeg_demux.c): maintain the per-stream dts estimate
`ds->dts` and prediction `ds->next_dts`.  The first-timestamp
initialisation divides by `av_q2d(avg_frame_rate)` in C; it is modelled as
the exact rational division truncated toward zero.  Returns the updated
stream state and `fd->dts_est`. -/
def ist_dts_update (ds : DStream) (pkt : AVPacket) : DStream × Int :=
  let ds :=
    if ¬ds.saw_first_ts then
      let base : Int := if ds.avg_frame_rate.num ≠ 0 then
          Int.tdiv (-ds.video_delay * AV_TIME_BASE * ds.avg_frame_rate.den)
            ds.avg_frame_rate.num
        else 0
      let base := if pkt.pts ≠ AV_NOPTS_VALUE then
          base + av_rescale_q pkt.pts pkt.time_base AV_TIME_BASE_Q
        else base
      { ds with first_dts := base, dts := base, saw_first_ts := true }
    else ds
  let ds := if ds.next_dts = AV_NOPTS_VALUE then { ds with next_dts := ds.dts }
    else ds
  let ds := if pkt.dts ≠ AV_NOPTS_VALUE then
      let v := av_rescale_q pkt.dts pkt.time_base AV_TIME_BASE_Q
      { ds with next_dts := v, dts := v }
    else ds
  let ds := { ds with dts := ds.next_dts }
  let ds :=
    match ds.codec_type with
    | .audio =>
        if ds.par_sample_rate ≠ 0 then
          { ds with next_dts := ds.next_dts +
              Int.tdiv (AV_TIME_BASE * ds.par_frame_size) ds.par_sample_rate }
        else
          { ds with next_dts := ds.next_dts +
              av_rescale_q pkt.duration pkt.time_base AV_TIME_BASE_Q }
    | .video =>
        if ds.framerate.num ≠ 0 then
          let next := av_rescale_q ds.next_dts AV_TIME_BASE_Q
            (av_inv_q ds.framerate)
          { ds with next_dts :=
              av_rescale_q (next + 1) (av_inv_q ds.framerate) AV_TIME_BASE_Q }
        else if pkt.duration ≠ 0 then
          { ds with next_dts := ds.next_dts +
              av_rescale_q pkt.duration pkt.time_base AV_TIME_BASE_Q }
        else if ds.par_framerate.num ≠ 0 then
          let field_rate := av_mul_q ds.par_framerate ⟨2, 1⟩
          let fields : Int := if ds.has_parser_fields then
              1 + ds.parser_repeat_pict else 2
          { ds with next_dts := ds.next_dts +
              av_rescale_q fields (av_inv_q field_rate) AV_TIME_BASE_Q }
        else ds
    | _ => ds
  (ds, ds.dts)

/-- The pts wrap-correction block of `ts_fixup`: on the first packets of a
stream, when the container start time plus one wrap period is strictly
greater than the start time and a timestamp exceeds start plus half a wrap
period, subtract one wrap period (and keep correcting until a packet needs
no correction). -/
def ts_wrap_step (start_time : Int) (ds : DStream) (pkt : AVPacket) :
    AVPacket × DStream :=
  if ¬ds.wrap_correction_done ∧ start_time ≠ AV_NOPTS_VALUE ∧
      ds.pts_wrap_bits < 64 then
    let stime := av_rescale_q start_time AV_TIME_BASE_Q pkt.time_base
    let stime2 := stime + 2 ^ ds.pts_wrap_bits
    let ds := { ds with wrap_correction_done := true }
    let w :=
      if stime < stime2 ∧ pkt.dts ≠ AV_NOPTS_VALUE ∧
          stime + 2 ^ (ds.pts_wrap_bits - 1) < pkt.dts then
        ({ pkt with dts := pkt.dts - 2 ^ ds.pts_wrap_bits },
         { ds with wrap_correction_done := false })
      else (pkt, ds)
    let pkt := w.1
    let ds := w.2
    if stime < stime2 ∧ pkt.pts ≠ AV_NOPTS_VALUE ∧
        stime + 2 ^ (ds.pts_wrap_bits - 1) < pkt.pts then
      ({ pkt with pts := pkt.pts - 2 ^ ds.pts_wrap_bits },
       { ds with wrap_correction_done := false })
    else (pkt, ds)
  else (pkt, ds)

/-- The `ts_offset` block of `ts_fixup`: add the demuxer-wide offset,
rescaled into the packet's time base, to pts and dts when present. -/
def ts_offset_step (ts_offset : Int) (pkt : AVPacket) : AVPacket :=
  let off := av_rescale_q ts_offset AV_TIME_BASE_Q pkt.time_base
  { pkt with
      dts := if pkt.dts ≠ AV_NOPTS_VALUE then pkt.dts + off else pkt.dts
      pts := if pkt.pts ≠ AV_NOPTS_VALUE then pkt.pts + off else pkt.pts }

/-- The `ts_scale` block of `ts_fixup`: multiply pts and dts by the
per-stream user factor when present. -/
def ts_scale_step (scale : Int) (pkt : AVPacket) : AVPacket :=
  { pkt with
      pts := if pkt.pts ≠ AV_NOPTS_VALUE then pkt.pts * scale else pkt.pts
      dts := if pkt.dts ≠ AV_NOPTS_VALUE then pkt.dts * scale else pkt.dts }

/-- The opening timestamp transformations of `ts_fixup`, in source order:
adopt the stream time base, wrap correction, `ts_offset`, `ts_scale`. -/
def ts_fixup_pre (d : DemuxState) (ds : DStream) (pkt : AVPacket) :
    AVPacket × DStream :=
  let pkt := { pkt with time_base := ds.st_time_base }
  let w := ts_wrap_step d.start_time_effective ds pkt
  let pkt := ts_offset_step d.ts_offset w.1
  let pkt := ts_scale_step ds.ts_scale pkt
  (pkt, w.2)

/-- The same three transformations in the order stated by the
specification: `ts_scale` first, then wrap correction, then `ts_offset`. -/
def ts_fixup_claim_order (d : DemuxState) (ds : DStream) (pkt : AVPacket) :
    AVPacket × DStream :=
  let pkt := { pkt with time_base := ds.st_time_base }
  let pkt := ts_scale_step ds.ts_scale pkt
  let w := ts_wrap_step d.start_time_effective ds pkt
  let pkt := ts_offset_step d.ts_offset w.1
  (pkt, w.2)

/-- The `ts_fixup` (ffmpeg_demux.c): the full per-packet timestamp fix-up:
the opening transformations (`ts_fixup_pre`), the loop-duration offset with
min/max-pts bookkeeping, discontinuity processing and the dts-estimate
update.  Returns the packet, the demuxer state, the stream state and
`fd->dts_est`. -/
def ts_fixup (g : Globals) (d : DemuxState) (ds : DStream) (pkt : AVPacket) :
    AVPacket × DemuxState × DStream × Int :=
  let p := ts_fixup_pre d ds pkt
  let pkt := p.1
  let ds := p.2
  let duration := av_rescale_q d.duration.ts d.duration.tb pkt.time_base
  let q :=
    if pkt.pts ≠ AV_NOPTS_VALUE then
      let pkt_duration : Int := if d.have_audio_dec then 0 else pkt.duration
      let pkt := { pkt with pts := pkt.pts + duration }
      let d :=
        if d.max_pts.ts = AV_NOPTS_VALUE ∨
            av_compare_ts d.max_pts.ts d.max_pts.tb
              (pkt.pts + pkt_duration) pkt.time_base < 0 then
          { d with max_pts := ⟨pkt.pts + pkt_duration, pkt.time_base⟩ }
        else d
      let d :=
        if d.min_pts.ts = AV_NOPTS_VALUE ∨
            0 < av_compare_ts d.min_pts.ts d.min_pts.tb pkt.pts pkt.time_base
        then { d with min_pts := ⟨pkt.pts, pkt.time_base⟩ }
        else d
      (pkt, d)
    else (pkt, d)
  let pkt := q.1
  let d := q.2
  let pkt := if pkt.dts ≠ AV_NOPTS_VALUE then
      { pkt with dts := pkt.dts + duration } else pkt
  let t := ts_discontinuity_process g d ds pkt
  let r := ist_dts_update ds t.1
  (t.1, t.2, r.1, r.2)

/-! ## Demuxer stage: sub-to-video heartbeats (`demux_send`) -/

/-- The per-stream flags consulted by the heartbeat loop of `demux_send`. -/
structure HBStream where
  finished : Bool
  have_sub2video : Bool
  sch_idx_stream : Int
deriving DecidableEq, Repr

/-- The heartbeat loop of `demux_send` (ffmpeg_demux.c): when the heartbeat
packet is allocated (sub-to-video is active on some stream of the input)
and the packet being sent has a pts, emit one zero-payload heartbeat
carrying that pts and time base on every non-finished sub-to-video stream,
in stream order.  A packet is modelled by its pts and time base; the
result lists the `(sch_idx_stream, pts, time_base)` of each heartbeat
sent. -/
def demux_heartbeats (hb_allocated : Bool) (streams : List HBStream)
    (pkt : Option (Int × AVRational)) : List (Int × Int × AVRational) :=
  match pkt with
  | none => []
  | some (pts, tb) =>
      if hb_allocated ∧ pts ≠ AV_NOPTS_VALUE then
        (streams.filter fun s => ¬s.finished ∧ s.have_sub2video).map
          fun s => (s.sch_idx_stream, pts, tb)
      else []

/-! ## Demuxer stage: `ist_use` (fftools/ffmpeg_demux.c) -/

/-- The `AVDISCARD_ALL`. -/
def AVDISCARD_ALL : Int := 48

/-- The results the scheduler / decoder collaborators return during
`ist_use` (`sch_add_demux_stream`, `sch_add_dec`, `sch_connect`,
`dec_open`): nonnegative values are success (indices). -/
structure SchedOracle where
  add_demux_stream_ret : Int
  add_dec_ret : Int
  connect_ret : Int
  dec_open_ret : Int
deriving DecidableEq, Repr

/-- Observable registrations performed by `ist_use`. -/
inductive UseEvent where
  | added_demux_stream
  | added_dec
  | connected
  | opened_dec
deriving DecidableEq, Repr

/-- The mode of an `ist_use` call: streamcopy, or decoding
(`DECODING_FOR_OST` / `DECODING_FOR_FILTER`). -/
inductive UseMode where
  | streamcopy
  | decode_for_ost
  | decode_for_filter
deriving DecidableEq, Repr

/-- Whether a mode requests decoding (the `decoding_needed` argument is
nonzero). -/
def mode_decoding : UseMode → Bool
  | .streamcopy => false
  | .decode_for_ost => true
  | .decode_for_filter => true

/-- The per-stream state read and written by `ist_use`. -/
structure IstUseState where
  user_set_discard : Int
  /-- `ist->dec`: a decoder was found for the stream's codec. -/
  dec_present : Bool
  is_audio : Bool
  sch_idx_stream : Int
  sch_idx_dec : Int
  /-- `ds->discard`: the stream is not yet used. -/
  ds_discard : Bool
  nb_streams_used : Int
  st_discard : Int
  decoding_for_ost : Bool
  decoding_for_filter : Bool
  streamcopy_needed : Bool
  have_audio_dec : Bool
deriving DecidableEq, Repr

/-- The `ist_use` (ffmpeg_demux.c): mark an input stream as used, allocating
its scheduler stream on first use and, when decoding is requested, its
decoder node.  The decoder-option assembly, which only shapes the options
passed to `dec_open`, is not tracked.  Returns the result code, the updated
state and the registrations performed. -/
def ist_use (o : SchedOracle) (s : IstUseState) (mode : UseMode) :
    Int × IstUseState × List UseEvent :=
  if s.user_set_discard = AVDISCARD_ALL then (AVERROR_EINVAL, s, [])
  else if mode_decoding mode ∧ ¬s.dec_present then (AVERROR_EINVAL, s, [])
  else
    let first := s.sch_idx_stream < 0
    if first ∧ o.add_demux_stream_ret < 0 then (o.add_demux_stream_ret, s, [])
    else
      let s := if first then { s with sch_idx_stream := o.add_demux_stream_ret }
        else s
      let evs : List UseEvent := if first then [.added_demux_stream] else []
      let s := if s.ds_discard then
          { s with ds_discard := false, nb_streams_used := s.nb_streams_used + 1 }
        else s
      let s := { s with
          st_discard := s.user_set_discard
          decoding_for_ost := s.decoding_for_ost ∨ mode = .decode_for_ost
          decoding_for_filter := s.decoding_for_filter ∨ mode = .decode_for_filter
          streamcopy_needed := s.streamcopy_needed ∨ mode_decoding mode = false }
      if mode_decoding mode ∧ s.sch_idx_dec < 0 then
        if o.add_dec_ret < 0 then (o.add_dec_ret, s, evs)
        else
          let s := { s with sch_idx_dec := o.add_dec_ret }
          let evs := evs ++ [.added_dec]
          if o.connect_ret < 0 then (o.connect_ret, s, evs)
          else
            let evs := evs ++ [.connected]
            if o.dec_open_ret < 0 then (o.dec_open_ret, s, evs)
            else
              ((0 : Int),
               { s with have_audio_dec := s.have_audio_dec ∨ s.is_audio },
               evs ++ [.opened_dec])
      else ((0 : Int), s, evs)

/-! ## Output sync-queue wiring: `setup_sync_queues`
(fftools/ffmpeg_mux_init.c) -/

/-- The per-output-stream configuration read by `setup_sync_queues`. -/
structure OutStreamCfg where
  typ : MediaType
  /-- `ost->enc_ctx` is non-null (the stream is encoded). -/
  has_enc_ctx : Bool
  /-- `ost->max_frames`; `INT64_MAX` means unlimited. -/
  max_frames : Int
deriving DecidableEq, Repr

/-- The `IS_AV_ENC(ost, type)`: encoded audio or video stream. -/
def is_av_enc (o : OutStreamCfg) : Bool :=
  o.has_enc_ctx && (o.typ = MediaType.video ∨ o.typ = MediaType.audio)

/-- The `IS_INTERLEAVED(type)`: everything but attachments. -/
def is_interleaved (o : OutStreamCfg) : Bool :=
  o.typ ≠ MediaType.attachment

/-- The `ost->max_frames < INT64_MAX`: the stream has a finite frame cap. -/
def cap_finite (o : OutStreamCfg) : Bool :=
  o.max_frames < INT64_MAX

/-- Per-stream result of `setup_sync_queues`: the stream's index in the
encode / mux sync queue (-1 when not registered), the `limit_shortest` flag
it was registered with, and whether `sq_limit_frames` was applied. -/
structure OstSQ where
  sq_idx_encode : Int
  sq_idx_mux : Int
  enc_limiting : Bool
  enc_limit_applied : Bool
  mux_limiting : Bool
  mux_limit_applied : Bool
deriving DecidableEq, Repr

/-- One registration pass over the output streams: streams satisfying `p`
get successive `sq_add_stream` indices, the
`of->shortest || ost->max_frames < INT64_MAX` limiting flag, and
`sq_limit_frames` exactly when `max_frames != INT64_MAX`. -/
def sq_assign (p : OutStreamCfg → Bool) (shortest : Bool) :
    Nat → List OutStreamCfg → List (Int × Bool × Bool)
  | _, [] => []
  | n, o :: rest =>
      if p o then
        ((n : Int), shortest || cap_finite o, o.max_frames ≠ INT64_MAX) ::
          sq_assign p shortest (n + 1) rest
      else (-1, false, false) :: sq_assign p shortest n rest

/-- The result of `setup_sync_queues`: whether the encode and mux sync
queues were allocated, and the per-stream registrations. -/
structure SQSetup where
  sq_encode : Bool
  sq_mux : Bool
  streams : List OstSQ
deriving DecidableEq, Repr

/-- The `setup_sync_queues` (ffmpeg_mux_init.c): decide whether the output
needs encode-level and/or mux-level sync queues and register the streams
in them. -/
def setup_sync_queues (shortest : Bool) (streams : List OutStreamCfg) :
    SQSetup :=
  let nb_av_enc := streams.countP is_av_enc
  let nb_interleaved := streams.countP is_interleaved
  let limit_frames := streams.any cap_finite
  let limit_frames_av_enc := streams.any fun o => cap_finite o && is_av_enc o
  if ¬((1 < nb_interleaved ∧ shortest = true) ∨
       (0 < nb_interleaved ∧ limit_frames = true)) then
    ⟨false, false, streams.map fun _ => ⟨-1, -1, false, false, false, false⟩⟩
  else
    let enc_alloc := (shortest && decide (1 < nb_av_enc)) || limit_frames_av_enc
    let mux_alloc := decide (nb_av_enc < nb_interleaved)
    let enc := if enc_alloc then sq_assign is_av_enc shortest 0 streams
      else streams.map fun _ => (-1, false, false)
    let mux := if mux_alloc then sq_assign is_interleaved shortest 0 streams
      else streams.map fun _ => (-1, false, false)
    ⟨enc_alloc, mux_alloc,
     List.zipWith (fun e m => ⟨e.1, m.1, e.2.1, e.2.2, m.2.1, m.2.2⟩) enc mux⟩

/-- The allocation condition as the claim states it: shortest with more
than one interleaved stream, or at least one interleaved stream with a
finite `max_frames` cap. -/
def sq_claim_condition (shortest : Bool) (streams : List OutStreamCfg) :
    Prop :=
  (shortest = true ∧ 1 < streams.countP is_interleaved) ∨
  ∃ o ∈ streams, is_interleaved o = true ∧ o.max_frames < INT64_MAX

instance (shortest : Bool) (streams : List OutStreamCfg) :
    Decidable (sq_claim_condition shortest streams) := by
  unfold sq_claim_condition
  infer_instance


/-- Concrete stream state for the C2 witness: 44.1 kHz, internal time base
`1/44100`, last pts 100. -/
def c2_ist : InputStreamDec :=
  { codec_type := .audio, last_frame_sample_rate := 44100,
    last_frame_tb := ⟨1, 44100⟩, last_frame_pts := 100,
    last_frame_duration_est := 1024, filter_in_rescale_delta_last := 0,
    samples_decoded := 0, frames_decoded := 0, nb_samples := 0,
    decode_errors := 0, framerate := ⟨0, 1⟩, dec_framerate := ⟨0, 1⟩,
    avg_frame_rate := ⟨0, 1⟩, st_sample_aspect_ratio := ⟨0, 1⟩,
    top_field_first := -1, pkt_timebase := ⟨1, 44100⟩, format_nots := false }

/-- Concrete frame for the C2 witness: 48 kHz, time base `1/48000`. -/
def c2_frame : AVFrame :=
  { pts := 0, duration := 0, time_base := ⟨1, 48000⟩, nb_samples := 1024,
    sample_rate := 48000, repeat_pict := 0, best_effort_timestamp := 0,
    sample_aspect_ratio := ⟨0, 1⟩, flag_top_field_first := false }

/-- Concrete stream state for the C6 witness: no forced framerate, codec
framerate 25, container with timestamps, last pts 1000. -/
def c6_ist : InputStreamDec :=
  { codec_type := .video, last_frame_sample_rate := 0,
    last_frame_tb := ⟨1, 90000⟩, last_frame_pts := 1000,
    last_frame_duration_est := 3600, filter_in_rescale_delta_last := 0,
    samples_decoded := 0, frames_decoded := 0, nb_samples := 0,
    decode_errors := 0, framerate := ⟨0, 1⟩, dec_framerate := ⟨25, 1⟩,
    avg_frame_rate := ⟨25, 1⟩, st_sample_aspect_ratio := ⟨0, 1⟩,
    top_field_first := -1, pkt_timebase := ⟨1, 90000⟩, format_nots := false }

/-- Concrete frame for the C6 witness: zero duration, pts 4600, time base
`1/90000`. -/
def c6_frame : AVFrame :=
  { pts := 4600, duration := 0, time_base := ⟨1, 90000⟩, nb_samples := 0,
    sample_rate := 0, repeat_pict := 0, best_effort_timestamp := 4600,
    sample_aspect_ratio := ⟨0, 1⟩, flag_top_field_first := false }

/-! ## Theorems -/

/-- The pts-synthesis / gap-detection step never changes a frame's
`nb_samples`. -/
theorem audio_ts_gap_step_nb_samples (ist : InputStreamDec) (frame : AVFrame)
    (tb : AVRational) (pts_pred : Int) :
    (audio_ts_gap_step ist frame tb pts_pred).1.nb_samples =
      frame.nb_samples := by
  unfold audio_ts_gap_step
  split
  · rfl
  · split <;> rfl

/-- C1: audio timestamp post-processing.  With `pts_pred` computed (after
the sample-rate update) as 0 when `last_frame_pts` is NOPTS and
`last_frame_pts + last_frame_duration_est` otherwise: a frame arriving with
pts == NOPTS gets pts = `pts_pred` and the chosen internal time base; a
frame with a pts, when `last_frame_pts` is known and the pts is strictly
greater than `pts_pred` rounded up into the frame's time base, causes the
stateful-rescale accumulator `filter_in_rescale_delta_last` to be reset to
NOPTS; and in all cases the frame leaves the stage with time base
`{1, sample_rate}` and duration `nb_samples`. -/
theorem claim_c1_audio_ts_process (ist : InputStreamDec) (frame : AVFrame) :
    (frame.pts = AV_NOPTS_VALUE →
      audio_ts_gap_step (audio_samplerate_update ist frame).2 frame
          (audio_samplerate_update ist frame).1
          (audio_pts_pred (audio_samplerate_update ist frame).2) =
        ({ frame with
            pts := audio_pts_pred (audio_samplerate_update ist frame).2
            time_base := (audio_samplerate_update ist frame).1 },
         (audio_samplerate_update ist frame).2)) ∧
    (frame.pts ≠ AV_NOPTS_VALUE →
      (audio_samplerate_update ist frame).2.last_frame_pts ≠ AV_NOPTS_VALUE →
      av_rescale_q_rnd (audio_pts_pred (audio_samplerate_update ist frame).2)
          (audio_samplerate_update ist frame).1 frame.time_base .up false <
        frame.pts →
      (audio_ts_gap_step (audio_samplerate_update ist frame).2 frame
          (audio_samplerate_update ist frame).1
          (audio_pts_pred (audio_samplerate_update ist frame).2)
        ).2.filter_in_rescale_delta_last = AV_NOPTS_VALUE) ∧
    (audio_ts_process ist frame).1.time_base = ⟨1, frame.sample_rate⟩ ∧
    (audio_ts_process ist frame).1.duration = frame.nb_samples := by
  refine ⟨fun h => ?_, fun h1 h2 h3 => ?_, rfl, ?_⟩
  · simp [audio_ts_gap_step, h]
  · simp [audio_ts_gap_step, h1, h2, h3]
  · show (audio_ts_gap_step _ frame _ _).1.nb_samples = frame.nb_samples
    exact audio_ts_gap_step_nb_samples ..

/-- Witness for C1 at a concrete input: a 1024-sample 44.1 kHz frame with
no pts, against a stream state whose last frame ended at pts 1024. -/
theorem claim_c1_witness :
    (audio_ts_process
        { codec_type := .audio, last_frame_sample_rate := 44100,
          last_frame_tb := ⟨1, 44100⟩, last_frame_pts := 0,
          last_frame_duration_est := 1024, filter_in_rescale_delta_last := 1024,
          samples_decoded := 1024, frames_decoded := 1, nb_samples := 1024,
          decode_errors := 0, framerate := ⟨0, 1⟩, dec_framerate := ⟨0, 1⟩,
          avg_frame_rate := ⟨0, 1⟩, st_sample_aspect_ratio := ⟨0, 1⟩,
          top_field_first := -1, pkt_timebase := ⟨1, 44100⟩,
          format_nots := false }
        { pts := AV_NOPTS_VALUE, duration := 0, time_base := ⟨1, 44100⟩,
          nb_samples := 1024, sample_rate := 44100, repeat_pict := 0,
          best_effort_timestamp := 0, sample_aspect_ratio := ⟨0, 1⟩,
          flag_top_field_first := false }).1.time_base = ⟨1, 44100⟩ ∧
    (audio_ts_process
        { codec_type := .audio, last_frame_sample_rate := 44100,
          last_frame_tb := ⟨1, 44100⟩, last_frame_pts := 0,
          last_frame_duration_est := 1024, filter_in_rescale_delta_last := 1024,
          samples_decoded := 1024, frames_decoded := 1, nb_samples := 1024,
          decode_errors := 0, framerate := ⟨0, 1⟩, dec_framerate := ⟨0, 1⟩,
          avg_frame_rate := ⟨0, 1⟩, st_sample_aspect_ratio := ⟨0, 1⟩,
          top_field_first := -1, pkt_timebase := ⟨1, 44100⟩,
          format_nots := false }
        { pts := AV_NOPTS_VALUE, duration := 0, time_base := ⟨1, 44100⟩,
          nb_samples := 1024, sample_rate := 44100, repeat_pict := 0,
          best_effort_timestamp := 0, sample_aspect_ratio := ⟨0, 1⟩,
          flag_top_field_first := false }).1.duration = 1024 :=
  ⟨(claim_c1_audio_ts_process _ _).2.2.1, (claim_c1_audio_ts_process _ _).2.2.2⟩

/-- The product `a/gcd(a,b) * b` is the least common multiple, for positive
`a`, `b` (the shape in which `audio_samplerate_update` computes the new
denominator). -/
theorem tdiv_gcd_mul_eq_lcm (a b : Int) (ha : 0 < a) (hb : 0 < b) :
    a.tdiv (av_gcd a b) * b = (Int.lcm a b : Int) := by
  have hg0 : (Int.gcd a b : Int) ≠ 0 := by
    have : a ≠ 0 := ha.ne.symm
    intro h
    have hz : Int.gcd a b = 0 := by exact_mod_cast h
    exact this (Int.gcd_eq_zero_iff.mp hz).1
  have hd : (Int.gcd a b : Int) ∣ a := Int.gcd_dvd_left
  have h1 : (Int.gcd a b : Int) * a.tdiv (av_gcd a b) = a := by
    rw [av_gcd, Int.tdiv_eq_ediv_of_dvd hd]
    exact Int.mul_ediv_cancel' hd
  refine mul_left_cancel₀ hg0 ?_
  calc (Int.gcd a b : Int) * (a.tdiv (av_gcd a b) * b)
      = ((Int.gcd a b : Int) * a.tdiv (av_gcd a b)) * b := by ring
    _ = a * b := by rw [h1]
    _ = ((a * b).natAbs : Int) := (Int.natAbs_of_nonneg (by positivity)).symm
    _ = (Int.gcd a b : Int) * (Int.lcm a b : Int) := by
        exact_mod_cast (Int.gcd_mul_lcm a b).symm

/-- C2: on a sample-rate change, the samplerate-derived candidate for the
new internal time base is `1 / lcm(prev_den, new_rate)` — computed as
`prev_den/gcd * new_rate` — except that on 32-bit overflow
(`prev_den/gcd >= INT_MAX/new_rate`) it is `1/28224000`; the chosen time
base is that candidate (up to the frame-time-base preference), and
`last_frame_pts` (when not NOPTS) and `last_frame_duration_est` are
rescaled from the old internal time base into the new one. -/
theorem claim_c2_audio_samplerate_update (ist : InputStreamDec)
    (frame : AVFrame) (hsr : frame.sample_rate ≠ ist.last_frame_sample_rate)
    (hprev : 0 < ist.last_frame_tb.den) (hs : 0 < frame.sample_rate) :
    (INT_MAX.tdiv frame.sample_rate ≤
        ist.last_frame_tb.den.tdiv
          (av_gcd ist.last_frame_tb.den frame.sample_rate) →
      audio_tb_candidate ist.last_frame_tb.den frame.sample_rate =
        ⟨1, 28224000⟩) ∧
    (ist.last_frame_tb.den.tdiv
        (av_gcd ist.last_frame_tb.den frame.sample_rate) <
        INT_MAX.tdiv frame.sample_rate →
      audio_tb_candidate ist.last_frame_tb.den frame.sample_rate =
        ⟨1, (Int.lcm ist.last_frame_tb.den frame.sample_rate : Int)⟩) ∧
    (audio_samplerate_update ist frame).1 =
      audio_tb_prefer_frame frame.time_base
        (audio_tb_candidate ist.last_frame_tb.den frame.sample_rate) ∧
    (ist.last_frame_pts ≠ AV_NOPTS_VALUE →
      (audio_samplerate_update ist frame).2.last_frame_pts =
        av_rescale_q ist.last_frame_pts ist.last_frame_tb
          (audio_samplerate_update ist frame).1) ∧
    (audio_samplerate_update ist frame).2.last_frame_duration_est =
      av_rescale_q ist.last_frame_duration_est ist.last_frame_tb
        (audio_samplerate_update ist frame).1 := by
  refine ⟨fun h => ?_, fun h => ?_, ?_, fun h => ?_, ?_⟩
  · simp [audio_tb_candidate, h]
  · rw [audio_tb_candidate]
    simp only [not_le.mpr h, if_neg (not_le.mpr h)]
    exact congrArg (AVRational.mk 1)
      (tdiv_gcd_mul_eq_lcm ist.last_frame_tb.den frame.sample_rate hprev hs)
  · simp [audio_samplerate_update, hsr]
  · simp [audio_samplerate_update, hsr, h]
  · simp [audio_samplerate_update, hsr]

/-- Witness for C2 at a concrete input: 44100 Hz → 48000 Hz, candidate
denominator `lcm(44100, 48000)`, previous pts rescaled into the new time
base. -/
theorem claim_c2_witness :
    c2_frame.sample_rate ≠ c2_ist.last_frame_sample_rate ∧
    0 < c2_ist.last_frame_tb.den ∧ 0 < c2_frame.sample_rate ∧
    audio_tb_candidate c2_ist.last_frame_tb.den c2_frame.sample_rate =
      ⟨1, (Int.lcm c2_ist.last_frame_tb.den c2_frame.sample_rate : Int)⟩ ∧
    (audio_samplerate_update c2_ist c2_frame).2.last_frame_pts =
      av_rescale_q c2_ist.last_frame_pts c2_ist.last_frame_tb
        (audio_samplerate_update c2_ist c2_frame).1 := by
  refine ⟨by decide, by decide, by decide, ?_, ?_⟩
  · exact (claim_c2_audio_samplerate_update c2_ist c2_frame (by decide)
      (by decide) (by decide)).2.1 (by decide)
  · exact (claim_c2_audio_samplerate_update c2_ist c2_frame (by decide)
      (by decide) (by decide)).2.2.2.1 (by decide)

/-- Counterexample to C5 as stated.  Stream at 44.1 kHz with internal time
base `1/44100`; a 48 kHz frame arrives with time base `1/14112000`.  The
samplerate-derived candidate is `1/7056000` and the code prefers the
frame's time base `1/14112000` — yet the frame's denominator 14112000 does
not divide the candidate's denominator 7056000 (it is the candidate's
denominator that divides the frame's), so the claim's condition for the
preference is false while the preference happens. -/
theorem claim_c5_counterexample :
    audio_tb_candidate 44100 48000 = ⟨1, 7056000⟩ ∧
    audio_tb_prefer_frame ⟨1, 14112000⟩ ⟨1, 7056000⟩ = ⟨1, 14112000⟩ ∧
    (audio_samplerate_update
        { codec_type := .audio, last_frame_sample_rate := 44100,
          last_frame_tb := ⟨1, 44100⟩, last_frame_pts := 0,
          last_frame_duration_est := 1024, filter_in_rescale_delta_last := 0,
          samples_decoded := 0, frames_decoded := 0, nb_samples := 0,
          decode_errors := 0, framerate := ⟨0, 1⟩, dec_framerate := ⟨0, 1⟩,
          avg_frame_rate := ⟨0, 1⟩, st_sample_aspect_ratio := ⟨0, 1⟩,
          top_field_first := -1, pkt_timebase := ⟨1, 44100⟩,
          format_nots := false }
        { pts := 0, duration := 0, time_base := ⟨1, 14112000⟩,
          nb_samples := 1024, sample_rate := 48000, repeat_pict := 0,
          best_effort_timestamp := 0, sample_aspect_ratio := ⟨0, 1⟩,
          flag_top_field_first := false }).1 = ⟨1, 14112000⟩ ∧
    ¬((7056000 : Int) % 14112000 = 0) := by
  refine ⟨by decide, by decide, by decide, by decide⟩

/-- C5 as amended: the frame's own time base is preferred over the
samplerate-derived candidate exactly when the frame's time base is strictly
finer (numerator 1 and strictly larger denominator) and the *candidate's*
denominator divides the *frame's* denominator. -/
theorem claim_c5_amended (ftb cand : AVRational) (h : ftb ≠ cand) :
    audio_tb_prefer_frame ftb cand = ftb ↔
      ftb.num = 1 ∧ cand.den < ftb.den ∧ cand.den ∣ ftb.den := by
  unfold audio_tb_prefer_frame
  split
  case isTrue hc =>
    simp only [true_iff, iff_true]
    exact ⟨hc.1, hc.2.1, Int.dvd_of_emod_eq_zero hc.2.2⟩
  case isFalse hc =>
    constructor
    · intro he
      exact absurd he.symm h
    · intro hcond
      exact absurd
        ⟨hcond.1, hcond.2.1, Int.emod_eq_zero_of_dvd hcond.2.2⟩ hc

/-- Witness for C5 as amended: `1/96000` against candidate `1/48000` — the
frame time base is preferred, and the condition holds with 48000 dividing
96000. -/
theorem claim_c5_amended_witness :
    (⟨1, 96000⟩ : AVRational) ≠ ⟨1, 48000⟩ ∧
    (audio_tb_prefer_frame ⟨1, 96000⟩ ⟨1, 48000⟩ = ⟨1, 96000⟩ ↔
      (⟨1, 96000⟩ : AVRational).num = 1 ∧
        (⟨1, 48000⟩ : AVRational).den < (⟨1, 96000⟩ : AVRational).den ∧
        (⟨1, 48000⟩ : AVRational).den ∣ (⟨1, 96000⟩ : AVRational).den) :=
  ⟨by decide, claim_c5_amended ⟨1, 96000⟩ ⟨1, 48000⟩ (by decide)⟩

/-- C6: the per-frame video duration estimate follows this exact priority
chain: frame duration when positive and the container has real timestamps
or a framerate was forced; else the codec-layer duration when positive and
the container lacks timestamps; else the pts difference to the last frame
when both pts are known and strictly monotonic; else positive frame
duration, then positive codec duration, then one frame at the average
framerate when that rescales to a positive duration; else
`max(last_frame_duration_est, 1)`. -/
theorem claim_c6_video_duration_estimate (ist : InputStreamDec)
    (frame : AVFrame) :
    (0 < frame.duration ∧ (¬ist.format_nots ∨ ist.framerate.num ≠ 0) →
      video_duration_estimate ist frame = frame.duration) ∧
    (¬(0 < frame.duration ∧ (¬ist.format_nots ∨ ist.framerate.num ≠ 0)) →
      0 < video_codec_duration ist frame ∧ ist.format_nots →
      video_duration_estimate ist frame = video_codec_duration ist frame) ∧
    (¬(0 < frame.duration ∧ (¬ist.format_nots ∨ ist.framerate.num ≠ 0)) →
      ¬(0 < video_codec_duration ist frame ∧ ist.format_nots) →
      frame.pts ≠ AV_NOPTS_VALUE ∧ ist.last_frame_pts ≠ AV_NOPTS_VALUE ∧
        ist.last_frame_pts < frame.pts →
      video_duration_estimate ist frame = frame.pts - ist.last_frame_pts) ∧
    (¬(0 < frame.duration ∧ (¬ist.format_nots ∨ ist.framerate.num ≠ 0)) →
      ¬(0 < video_codec_duration ist frame ∧ ist.format_nots) →
      ¬(frame.pts ≠ AV_NOPTS_VALUE ∧ ist.last_frame_pts ≠ AV_NOPTS_VALUE ∧
        ist.last_frame_pts < frame.pts) →
      0 < frame.duration →
      video_duration_estimate ist frame = frame.duration) ∧
    (¬(0 < frame.duration ∧ (¬ist.format_nots ∨ ist.framerate.num ≠ 0)) →
      ¬(0 < video_codec_duration ist frame ∧ ist.format_nots) →
      ¬(frame.pts ≠ AV_NOPTS_VALUE ∧ ist.last_frame_pts ≠ AV_NOPTS_VALUE ∧
        ist.last_frame_pts < frame.pts) →
      ¬(0 < frame.duration) → 0 < video_codec_duration ist frame →
      video_duration_estimate ist frame = video_codec_duration ist frame) ∧
    (¬(0 < frame.duration ∧ (¬ist.format_nots ∨ ist.framerate.num ≠ 0)) →
      ¬(0 < video_codec_duration ist frame ∧ ist.format_nots) →
      ¬(frame.pts ≠ AV_NOPTS_VALUE ∧ ist.last_frame_pts ≠ AV_NOPTS_VALUE ∧
        ist.last_frame_pts < frame.pts) →
      ¬(0 < frame.duration) → ¬(0 < video_codec_duration ist frame) →
      0 < video_avg_duration ist frame →
      video_duration_estimate ist frame = video_avg_duration ist frame) ∧
    (¬(0 < frame.duration ∧ (¬ist.format_nots ∨ ist.framerate.num ≠ 0)) →
      ¬(0 < video_codec_duration ist frame ∧ ist.format_nots) →
      ¬(frame.pts ≠ AV_NOPTS_VALUE ∧ ist.last_frame_pts ≠ AV_NOPTS_VALUE ∧
        ist.last_frame_pts < frame.pts) →
      ¬(0 < frame.duration) → ¬(0 < video_codec_duration ist frame) →
      ¬(0 < video_avg_duration ist frame) →
      video_duration_estimate ist frame =
        max ist.last_frame_duration_est 1) := by
  refine ⟨fun hA => ?_, fun hA hB => ?_, fun hA hB hC => ?_,
    fun hA hB hC hD => ?_, fun hA hB hC hD hE => ?_,
    fun hA hB hC hD hE hF => ?_, fun hA hB hC hD hE hF => ?_⟩
  · simp only [video_duration_estimate, if_pos hA]
  · simp only [video_duration_estimate, if_neg hA, if_pos hB]
  · simp only [video_duration_estimate, if_neg hA, if_neg hB, if_pos hC]
  · simp only [video_duration_estimate, if_neg hA, if_neg hB, if_neg hC,
      if_pos hD]
  · simp only [video_duration_estimate, if_neg hA, if_neg hB, if_neg hC,
      if_neg hD, if_pos hE]
  · simp only [video_duration_estimate, if_neg hA, if_neg hB, if_neg hC,
      if_neg hD, if_neg hE, if_pos hF]
  · simp only [video_duration_estimate, if_neg hA, if_neg hB, if_neg hC,
      if_neg hD, if_neg hE, if_neg hF]

/-- Witness for C6 at a concrete input: duration 0 and monotonic pts, so
the estimate is the pts difference 3600. -/
theorem claim_c6_witness :
    video_duration_estimate c6_ist c6_frame =
      c6_frame.pts - c6_ist.last_frame_pts :=
  (claim_c6_video_duration_estimate c6_ist c6_frame).2.2.1 (by decide)
    (by decide) (by decide)

/-- C8: for every non-subtitle decoder, `dec_packet` on a non-null packet
with payload size 0 returns 0 immediately: whatever the codec would have
done, the packet is not submitted, no frames are received or forwarded, no
EOF is triggered, and the whole per-stream state — in particular
`last_frame_pts`, `last_frame_duration_est` and
`filter_in_rescale_delta_last` — is left unchanged. -/
theorem claim_c8_dec_packet_zero_size (ist : InputStreamDec)
    (cb : CodecBehavior) (no_eof : Bool)
    (h : ist.codec_type ≠ MediaType.subtitle) :
    dec_packet ist cb (some 0) no_eof = (0, ist, []) := by
  simp [dec_packet, h]

/-- Witness for C8 at a concrete input: a video stream state and a codec
behaviour that would decode a frame and then fail — none of which is
reached for a 0-sized packet. -/
theorem claim_c8_witness :
    dec_packet
      { codec_type := .video, last_frame_sample_rate := 0,
        last_frame_tb := ⟨1, 90000⟩, last_frame_pts := 1000,
        last_frame_duration_est := 3600, filter_in_rescale_delta_last := 77,
        samples_decoded := 0, frames_decoded := 5, nb_samples := 0,
        decode_errors := 0, framerate := ⟨0, 1⟩, dec_framerate := ⟨25, 1⟩,
        avg_frame_rate := ⟨25, 1⟩, st_sample_aspect_ratio := ⟨0, 1⟩,
        top_field_first := -1, pkt_timebase := ⟨1, 90000⟩,
        format_nots := false }
      { send_ret := 0,
        recv := [.frame ⟨0, 0, ⟨1, 90000⟩, 0, 0, 0, 0, ⟨0, 1⟩, false⟩,
                 .err (-5)],
        subtitle_ret := -22 }
      (some 0) false =
    (0,
     { codec_type := .video, last_frame_sample_rate := 0,
       last_frame_tb := ⟨1, 90000⟩, last_frame_pts := 1000,
       last_frame_duration_est := 3600, filter_in_rescale_delta_last := 77,
       samples_decoded := 0, frames_decoded := 5, nb_samples := 0,
       decode_errors := 0, framerate := ⟨0, 1⟩, dec_framerate := ⟨25, 1⟩,
       avg_frame_rate := ⟨25, 1⟩, st_sample_aspect_ratio := ⟨0, 1⟩,
       top_field_first := -1, pkt_timebase := ⟨1, 90000⟩,
       format_nots := false }, []) :=
  claim_c8_dec_packet_zero_size _ _ false (by decide)

/-- C9: `ist_use` fails with AVERROR(EINVAL) — without touching the stream
state and without registering anything with the scheduler — in exactly two
cases: the stream's user-set discard policy is AVDISCARD_ALL, or decoding
is requested but no decoder was found; in every other case, with the
scheduler and decoder-open collaborators succeeding, it returns 0. -/
theorem claim_c9_ist_use (o : SchedOracle) (s : IstUseState) (mode : UseMode) :
    (s.user_set_discard = AVDISCARD_ALL →
      ist_use o s mode = (AVERROR_EINVAL, s, [])) ∧
    (s.user_set_discard ≠ AVDISCARD_ALL → mode_decoding mode = true →
      s.dec_present = false →
      ist_use o s mode = (AVERROR_EINVAL, s, [])) ∧
    (s.user_set_discard ≠ AVDISCARD_ALL →
      (mode_decoding mode = false ∨ s.dec_present = true) →
      0 ≤ o.add_demux_stream_ret → 0 ≤ o.add_dec_ret → 0 ≤ o.connect_ret →
      0 ≤ o.dec_open_ret → (ist_use o s mode).1 = 0) := by
  refine ⟨fun h1 => ?_, fun h1 h2 h3 => ?_, fun h1 h2 h3 h4 h5 h6 => ?_⟩
  · simp [ist_use, h1]
  · simp [ist_use, h1, h2, h3]
  · simp only [ist_use]
    rw [if_neg h1]
    have h2' : ¬(mode_decoding mode = true ∧ ¬(s.dec_present = true)) := by
      rcases h2 with h | h
      · intro hc
        rw [h] at hc
        exact Bool.false_ne_true hc.1
      · intro hc
        exact hc.2 h
    rw [if_neg h2']
    have hA : ¬(s.sch_idx_stream < 0 ∧ o.add_demux_stream_ret < 0) :=
      fun hc => absurd hc.2 (not_lt.mpr h3)
    rw [if_neg hA]
    split
    all_goals split
    all_goals try split
    all_goals first
      | rfl
      | rw [if_neg (not_lt.mpr h4), if_neg (not_lt.mpr h5),
          if_neg (not_lt.mpr h6)]

/-- Witness for C9 at concrete inputs: a fresh non-discarded stream with a
decoder present, used for decoding, with all collaborators succeeding,
yields 0. -/
theorem claim_c9_witness :
    (0 : Int) ≠ AVDISCARD_ALL ∧
    (ist_use ⟨2, 3, 0, 0⟩
        { user_set_discard := 0, dec_present := true, is_audio := false,
          sch_idx_stream := -1, sch_idx_dec := -1, ds_discard := true,
          nb_streams_used := 0, st_discard := 0, decoding_for_ost := false,
          decoding_for_filter := false, streamcopy_needed := false,
          have_audio_dec := false } .decode_for_ost).1 = 0 :=
  ⟨by decide,
   (claim_c9_ist_use ⟨2, 3, 0, 0⟩
      { user_set_discard := 0, dec_present := true, is_audio := false,
        sch_idx_stream := -1, sch_idx_dec := -1, ds_discard := true,
        nb_streams_used := 0, st_discard := 0, decoding_for_ost := false,
        decoding_for_filter := false, streamcopy_needed := false,
        have_audio_dec := false } .decode_for_ost).2.2 (by decide)
     (Or.inr (by decide)) (by decide) (by decide) (by decide) (by decide)⟩

/-- Counterexample to C7 as stated.  Sub-to-video is active (the heartbeat
packet is allocated and the input's only stream is a sub-to-video stream)
and a packet with pts 5 — trivially an advancing pts — is sent, yet no
heartbeat is emitted, because the stream is finished (all its consumers are
done): the code skips finished streams, which the claim does not allow. -/
theorem claim_c7_counterexample :
    ([⟨true, true, 0⟩] : List HBStream).any (fun s => s.have_sub2video) =
      true ∧
    (5 : Int) ≠ AV_NOPTS_VALUE ∧
    demux_heartbeats true [⟨true, true, 0⟩] (some (5, ⟨1, 1000⟩)) = [] := by
  refine ⟨by decide, by decide, by decide⟩

/-- C7 as amended: whenever the heartbeat packet is allocated (sub-to-video
active on at least one stream of the input), every packet sent with a known
(non-NOPTS) pts — in particular every packet that advances pts — produces a
heartbeat carrying that packet's pts and time base on each *non-finished*
sub-to-video input stream; and every heartbeat emitted carries exactly the
packet's pts and time base. -/
theorem claim_c7_amended (hb : Bool) (streams : List HBStream) (pts : Int)
    (tb : AVRational) (hhb : hb = true) (hpts : pts ≠ AV_NOPTS_VALUE) :
    (∀ s ∈ streams, s.finished = false → s.have_sub2video = true →
      (s.sch_idx_stream, pts, tb) ∈
        demux_heartbeats hb streams (some (pts, tb))) ∧
    (∀ e ∈ demux_heartbeats hb streams (some (pts, tb)),
      e.2.1 = pts ∧ e.2.2 = tb) := by
  constructor
  · intro s hs hfin hsub
    simp only [demux_heartbeats, hhb, hpts, ne_eq, not_false_eq_true,
      and_self, if_true, true_and, List.mem_map, List.mem_filter]
    exact ⟨s, ⟨hs, by simp [hfin, hsub]⟩, rfl⟩
  · intro e he
    simp only [demux_heartbeats, hhb, hpts, ne_eq, not_false_eq_true,
      and_self, if_true, true_and, List.mem_map] at he
    obtain ⟨s, _, rfl⟩ := he
    exact ⟨rfl, rfl⟩

/-- Witness for C7 as amended: one live sub-to-video stream with scheduler
index 3 receives the heartbeat `(3, 7, 1/90000)`. -/
theorem claim_c7_amended_witness :
    ((3 : Int), (7 : Int), (⟨1, 90000⟩ : AVRational)) ∈
      demux_heartbeats true [⟨false, true, 3⟩] (some (7, ⟨1, 90000⟩)) :=
  (claim_c7_amended true [⟨false, true, 3⟩] 7 ⟨1, 90000⟩ rfl
      (by decide)).1 ⟨false, true, 3⟩ (by decide) rfl rfl

/-- Counterexample to C4 as stated.  A packet with pts = dts = 0 on a
stream with `ts_scale = 2`, demuxer `ts_offset` of one second, stream time
base `1/1000000`, wrap correction inapplicable (no container start time).
The code computes pts `(0 + 1000000) * 2 = 2000000` (offset before scale);
the claim's order — scale, then wrap, then offset — would give
`0 * 2 + 1000000 = 1000000`. -/
theorem claim_c4_counterexample :
    (ts_fixup_pre
        ⟨false, 0, AV_NOPTS_VALUE, AV_NOPTS_VALUE, 1000000, ⟨0, ⟨1, 1⟩⟩,
         ⟨AV_NOPTS_VALUE, ⟨1, 1⟩⟩, ⟨AV_NOPTS_VALUE, ⟨1, 1⟩⟩, false⟩
        ⟨.video, ⟨1, 1000000⟩, 33, false, 2, false, 0, AV_NOPTS_VALUE,
         AV_NOPTS_VALUE, ⟨0, 1⟩, 0, ⟨0, 1⟩, ⟨0, 1⟩, 0, 0, false, 0⟩
        ⟨0, 0, 0, ⟨1, 90000⟩⟩).1.pts = 2000000 ∧
    (ts_fixup_claim_order
        ⟨false, 0, AV_NOPTS_VALUE, AV_NOPTS_VALUE, 1000000, ⟨0, ⟨1, 1⟩⟩,
         ⟨AV_NOPTS_VALUE, ⟨1, 1⟩⟩, ⟨AV_NOPTS_VALUE, ⟨1, 1⟩⟩, false⟩
        ⟨.video, ⟨1, 1000000⟩, 33, false, 2, false, 0, AV_NOPTS_VALUE,
         AV_NOPTS_VALUE, ⟨0, 1⟩, 0, ⟨0, 1⟩, ⟨0, 1⟩, 0, 0, false, 0⟩
        ⟨0, 0, 0, ⟨1, 90000⟩⟩).1.pts = 1000000 ∧
    (ts_fixup ⟨false, false, 10, 30⟩
        ⟨false, 0, AV_NOPTS_VALUE, AV_NOPTS_VALUE, 1000000, ⟨0, ⟨1, 1⟩⟩,
         ⟨AV_NOPTS_VALUE, ⟨1, 1⟩⟩, ⟨AV_NOPTS_VALUE, ⟨1, 1⟩⟩, false⟩
        ⟨.video, ⟨1, 1000000⟩, 33, false, 2, false, 0, AV_NOPTS_VALUE,
         AV_NOPTS_VALUE, ⟨0, 1⟩, 0, ⟨0, 1⟩, ⟨0, 1⟩, 0, 0, false, 0⟩
        ⟨0, 0, 0, ⟨1, 90000⟩⟩).1.pts = 2000000 ∧
    (2000000 : Int) ≠ 1000000 := by
  refine ⟨by decide, by decide, by decide, by decide⟩

/-- C4 as amended: the demuxer's per-packet timestamp fix-up applies, in
this order: the packet adopts the stream time base, then pts wrap
correction (subtracting one wrap period when the container start-time plus
one wrap period is strictly greater than the start-time and the timestamp
exceeds start plus half a wrap period), then the demuxer-wide `ts_offset`
is added, and only after that are pts and dts multiplied by the per-stream
user `ts_scale` factor. -/
theorem claim_c4_amended (d : DemuxState) (ds : DStream) (pkt : AVPacket) :
    ts_fixup_pre d ds pkt =
      (ts_scale_step ds.ts_scale
        (ts_offset_step d.ts_offset
          (ts_wrap_step d.start_time_effective ds
            { pkt with time_base := ds.st_time_base }).1),
       (ts_wrap_step d.start_time_effective ds
         { pkt with time_base := ds.st_time_base }).2) ∧
    (d.start_time_effective = AV_NOPTS_VALUE → pkt.pts ≠ AV_NOPTS_VALUE →
      pkt.pts + av_rescale_q d.ts_offset AV_TIME_BASE_Q ds.st_time_base ≠
        AV_NOPTS_VALUE →
      (ts_fixup_pre d ds pkt).1.pts =
        (pkt.pts + av_rescale_q d.ts_offset AV_TIME_BASE_Q ds.st_time_base) *
          ds.ts_scale) := by
  constructor
  · rfl
  · intro h1 h2 h3
    simp [ts_fixup_pre, ts_wrap_step, ts_offset_step, ts_scale_step, h1, h2,
      h3]

/-- Witness for C4 as amended: pts 10, offset 5 µs, scale 3 — the fixed-up
pts is `(10 + 5) * 3`. -/
theorem claim_c4_amended_witness :
    (ts_fixup_pre
        ⟨false, 0, AV_NOPTS_VALUE, AV_NOPTS_VALUE, 5, ⟨0, ⟨1, 1⟩⟩,
         ⟨AV_NOPTS_VALUE, ⟨1, 1⟩⟩, ⟨AV_NOPTS_VALUE, ⟨1, 1⟩⟩, false⟩
        ⟨.video, ⟨1, 1000000⟩, 33, false, 3, false, 0, AV_NOPTS_VALUE,
         AV_NOPTS_VALUE, ⟨0, 1⟩, 0, ⟨0, 1⟩, ⟨0, 1⟩, 0, 0, false, 0⟩
        ⟨10, 10, 0, ⟨1, 90000⟩⟩).1.pts =
      (10 + av_rescale_q 5 AV_TIME_BASE_Q ⟨1, 1000000⟩) * 3 :=
  (claim_c4_amended
      ⟨false, 0, AV_NOPTS_VALUE, AV_NOPTS_VALUE, 5, ⟨0, ⟨1, 1⟩⟩,
       ⟨AV_NOPTS_VALUE, ⟨1, 1⟩⟩, ⟨AV_NOPTS_VALUE, ⟨1, 1⟩⟩, false⟩
      ⟨.video, ⟨1, 1000000⟩, 33, false, 3, false, 0, AV_NOPTS_VALUE,
       AV_NOPTS_VALUE, ⟨0, 1⟩, 0, ⟨0, 1⟩, ⟨0, 1⟩, 0, 0, false, 0⟩
      ⟨10, 10, 0, ⟨1, 90000⟩⟩).2 rfl (by decide) (by decide)

/-- Counterexample to C3 as stated.  On a discontinuity-permitting
container with `dts_delta_threshold = 10`: previous packet dts estimate
1000000 µs, prediction `next_dts` 1040000 µs, and a packet with dts
500000 µs (time base `1/1000000`).  `|dts − next_dts| = 540000 ≤ 10 s`, so
by the claim no correction may be applied — yet the code applies it
(because `dts + AV_TIME_BASE/10 < ds->dts`, a backwards jump of more than
0.1 s), shifting the packet's dts to 1040000 and accumulating 540000 into
`ts_offset_discont`. -/
theorem claim_c3_counterexample :
    |(500000 : Int) - 1040000| ≤ 10 * AV_TIME_BASE ∧
    (ts_discontinuity_detect ⟨false, false, 10, 30⟩
        ⟨true, 0, AV_NOPTS_VALUE, AV_NOPTS_VALUE, 0, ⟨0, ⟨1, 1⟩⟩,
         ⟨AV_NOPTS_VALUE, ⟨1, 1⟩⟩, ⟨AV_NOPTS_VALUE, ⟨1, 1⟩⟩, false⟩
        ⟨.video, ⟨1, 1000000⟩, 33, true, 1, true, 0, 1000000, 1040000,
         ⟨0, 1⟩, 0, ⟨0, 1⟩, ⟨0, 1⟩, 0, 0, false, 0⟩
        ⟨500000, 500000, 40000, ⟨1, 1000000⟩⟩).1.dts = 1040000 ∧
    (ts_discontinuity_detect ⟨false, false, 10, 30⟩
        ⟨true, 0, AV_NOPTS_VALUE, AV_NOPTS_VALUE, 0, ⟨0, ⟨1, 1⟩⟩,
         ⟨AV_NOPTS_VALUE, ⟨1, 1⟩⟩, ⟨AV_NOPTS_VALUE, ⟨1, 1⟩⟩, false⟩
        ⟨.video, ⟨1, 1000000⟩, 33, true, 1, true, 0, 1000000, 1040000,
         ⟨0, 1⟩, 0, ⟨0, 1⟩, ⟨0, 1⟩, 0, 0, false, 0⟩
        ⟨500000, 500000, 40000, ⟨1, 1000000⟩⟩).2.ts_offset_discont =
      540000 ∧
    (1040000 : Int) ≠ 500000 ∧ (540000 : Int) ≠ 0 := by
  refine ⟨by decide, by decide, by decide, by decide, by decide⟩

/-- C3 as amended: for a packet with a dts, when `next_dts` is known and
discontinuity correction is not disabled: on a container marked as
permitting timestamp discontinuities, the correction (subtracting the
delta `dts − next_dts` from `ts_offset_discont` and from this packet's dts
and pts) is applied exactly when `|dts − next_dts|` exceeds
`dts_delta_threshold` seconds in AV_TIME_BASE units *or* the packet's dts
plus a tenth of a second is still less than the previous packet's dts
estimate; on a container not so marked, the packet's dts is set to NOPTS
exactly when the delta exceeds `dts_error_threshold` seconds, and its pts
is set to NOPTS exactly when `pts − next_dts` similarly exceeds
`dts_error_threshold`. -/
theorem claim_c3_amended (g : Globals) (d : DemuxState) (ds : DStream)
    (pkt : AVPacket) (hnext : ds.next_dts ≠ AV_NOPTS_VALUE)
    (hdis : disable_disc_correction g d ds pkt = false) :
    (d.fmt_is_discont = true →
      (g.dts_delta_threshold * AV_TIME_BASE <
          |av_rescale_q_rnd pkt.dts pkt.time_base AV_TIME_BASE_Q .nearInf
              true - ds.next_dts| ∨
        av_rescale_q_rnd pkt.dts pkt.time_base AV_TIME_BASE_Q .nearInf true +
            AV_TIME_BASE.tdiv 10 < ds.dts →
        (ts_discontinuity_detect g d ds pkt).1.dts =
          pkt.dts - av_rescale_q
            (av_rescale_q_rnd pkt.dts pkt.time_base AV_TIME_BASE_Q .nearInf
              true - ds.next_dts) AV_TIME_BASE_Q pkt.time_base ∧
        (ts_discontinuity_detect g d ds pkt).1.pts =
          (if pkt.pts ≠ AV_NOPTS_VALUE then
            pkt.pts - av_rescale_q
              (av_rescale_q_rnd pkt.dts pkt.time_base AV_TIME_BASE_Q .nearInf
                true - ds.next_dts) AV_TIME_BASE_Q pkt.time_base
          else pkt.pts) ∧
        (ts_discontinuity_detect g d ds pkt).2.ts_offset_discont =
          d.ts_offset_discont -
            (av_rescale_q_rnd pkt.dts pkt.time_base AV_TIME_BASE_Q .nearInf
              true - ds.next_dts)) ∧
      (¬(g.dts_delta_threshold * AV_TIME_BASE <
          |av_rescale_q_rnd pkt.dts pkt.time_base AV_TIME_BASE_Q .nearInf
              true - ds.next_dts| ∨
        av_rescale_q_rnd pkt.dts pkt.time_base AV_TIME_BASE_Q .nearInf true +
            AV_TIME_BASE.tdiv 10 < ds.dts) →
        (ts_discontinuity_detect g d ds pkt).1 = pkt ∧
        (ts_discontinuity_detect g d ds pkt).2.ts_offset_discont =
          d.ts_offset_discont)) ∧
    (d.fmt_is_discont = false →
      (ts_discontinuity_detect g d ds pkt).1.dts =
        (if g.dts_error_threshold * AV_TIME_BASE <
            |av_rescale_q_rnd pkt.dts pkt.time_base AV_TIME_BASE_Q .nearInf
                true - ds.next_dts| then AV_NOPTS_VALUE
         else pkt.dts) ∧
      (ts_discontinuity_detect g d ds pkt).1.pts =
        (if pkt.pts ≠ AV_NOPTS_VALUE ∧ g.dts_error_threshold * AV_TIME_BASE <
            |av_rescale_q pkt.pts pkt.time_base AV_TIME_BASE_Q -
              ds.next_dts| then AV_NOPTS_VALUE
         else pkt.pts) ∧
      (ts_discontinuity_detect g d ds pkt).2.ts_offset_discont =
        d.ts_offset_discont) := by
  refine ⟨fun hfmt => ⟨fun hC => ?_, fun hC => ?_⟩, fun hfmt => ?_⟩
  · simp only [ts_discontinuity_detect]
    rw [if_pos ⟨hnext, hdis⟩, if_pos hfmt, if_pos hC]
    exact ⟨rfl, rfl, rfl⟩
  · simp only [ts_discontinuity_detect]
    rw [if_pos ⟨hnext, hdis⟩, if_pos hfmt, if_neg hC]
    exact ⟨rfl, rfl⟩
  · simp only [ts_discontinuity_detect]
    rw [if_pos ⟨hnext, hdis⟩,
      if_neg (by simp [hfmt] : ¬(d.fmt_is_discont = true))]
    refine ⟨?_, ?_, ?_⟩
    · split
      case isTrue h1 =>
        split
        case isTrue h2 =>
          split <;> rfl
        case isFalse h2 => rfl
      case isFalse h1 =>
        split
        case isTrue h2 =>
          split <;> rfl
        case isFalse h2 => rfl
    · split
      case isTrue h1 =>
        split
        case isTrue h2 =>
          split
          case isTrue h3 =>
            rw [if_pos ⟨h2, h3⟩]
          case isFalse h3 =>
            rw [if_neg (fun hc => h3 hc.2)]
        case isFalse h2 =>
          rw [if_neg (fun hc => h2 hc.1)]
      case isFalse h1 =>
        split
        case isTrue h2 =>
          split
          case isTrue h3 =>
            rw [if_pos ⟨h2, h3⟩]
          case isFalse h3 =>
            rw [if_neg (fun hc => h3 hc.2)]
        case isFalse h2 =>
          rw [if_neg (fun hc => h2 hc.1)]
    · rfl

/-- Witness for C3 as amended, on a container without the discontinuity
flag: dts 100 µs (kept, delta below `dts_error_threshold`), pts 50000 s
(nulled, divergence above `dts_error_threshold`). -/
theorem claim_c3_amended_witness :
    (ts_discontinuity_detect ⟨false, false, 10, 30⟩
        ⟨false, 0, AV_NOPTS_VALUE, AV_NOPTS_VALUE, 0, ⟨0, ⟨1, 1⟩⟩,
         ⟨AV_NOPTS_VALUE, ⟨1, 1⟩⟩, ⟨AV_NOPTS_VALUE, ⟨1, 1⟩⟩, false⟩
        ⟨.video, ⟨1, 1000000⟩, 33, true, 1, true, 0, 0, 0, ⟨0, 1⟩, 0,
         ⟨0, 1⟩, ⟨0, 1⟩, 0, 0, false, 0⟩
        ⟨50000000000, 100, 40000, ⟨1, 1000000⟩⟩).1.dts = 100 ∧
    (ts_discontinuity_detect ⟨false, false, 10, 30⟩
        ⟨false, 0, AV_NOPTS_VALUE, AV_NOPTS_VALUE, 0, ⟨0, ⟨1, 1⟩⟩,
         ⟨AV_NOPTS_VALUE, ⟨1, 1⟩⟩, ⟨AV_NOPTS_VALUE, ⟨1, 1⟩⟩, false⟩
        ⟨.video, ⟨1, 1000000⟩, 33, true, 1, true, 0, 0, 0, ⟨0, 1⟩, 0,
         ⟨0, 1⟩, ⟨0, 1⟩, 0, 0, false, 0⟩
        ⟨50000000000, 100, 40000, ⟨1, 1000000⟩⟩).1.pts = AV_NOPTS_VALUE := by
  constructor
  · have h := (claim_c3_amended ⟨false, false, 10, 30⟩
      ⟨false, 0, AV_NOPTS_VALUE, AV_NOPTS_VALUE, 0, ⟨0, ⟨1, 1⟩⟩,
       ⟨AV_NOPTS_VALUE, ⟨1, 1⟩⟩, ⟨AV_NOPTS_VALUE, ⟨1, 1⟩⟩, false⟩
      ⟨.video, ⟨1, 1000000⟩, 33, true, 1, true, 0, 0, 0, ⟨0, 1⟩, 0,
       ⟨0, 1⟩, ⟨0, 1⟩, 0, 0, false, 0⟩
      ⟨50000000000, 100, 40000, ⟨1, 1000000⟩⟩ (by decide) (by decide)).2 rfl
    rw [h.1]
    decide
  · have h := (claim_c3_amended ⟨false, false, 10, 30⟩
      ⟨false, 0, AV_NOPTS_VALUE, AV_NOPTS_VALUE, 0, ⟨0, ⟨1, 1⟩⟩,
       ⟨AV_NOPTS_VALUE, ⟨1, 1⟩⟩, ⟨AV_NOPTS_VALUE, ⟨1, 1⟩⟩, false⟩
      ⟨.video, ⟨1, 1000000⟩, 33, true, 1, true, 0, 0, 0, ⟨0, 1⟩, 0,
       ⟨0, 1⟩, ⟨0, 1⟩, 0, 0, false, 0⟩
      ⟨50000000000, 100, 40000, ⟨1, 1000000⟩⟩ (by decide) (by decide)).2 rfl
    rw [h.2.1]
    decide

/-- Indexing into `List.zipWith`: when both lists have an `i`-th element,
the zipped list's `i`-th element is their image. -/
theorem zipWith_getElem?_some {α β γ : Type} (f : α → β → γ) :
    ∀ (as : List α) (bs : List β) (i : Nat) (a : α) (b : β),
      as[i]? = some a → bs[i]? = some b →
      (List.zipWith f as bs)[i]? = some (f a b) := by
  intro as
  induction as with
  | nil => intro bs i a b ha _; simp at ha
  | cons x xs ih =>
    intro bs i a b ha hb
    cases bs with
    | nil => simp at hb
    | cons y ys =>
      cases i with
      | zero =>
        simp only [List.getElem?_cons_zero, Option.some_inj] at ha hb
        subst ha; subst hb
        simp [List.zipWith]
      | succ j =>
        simp only [List.getElem?_cons_succ] at ha hb ⊢
        simpa [List.zipWith] using ih ys j a b ha hb

/-- The entries produced by `sq_assign`: a stream not matched by `p` gets
`(-1, false, false)`; a matched stream gets a nonnegative index, the
`shortest || max_frames < INT64_MAX` limiting flag, and the cap marker. -/
theorem sq_assign_spec (p : OutStreamCfg → Bool) (shortest : Bool)
    (xs : List OutStreamCfg) :
    ∀ (n i : Nat) (o : OutStreamCfg), xs[i]? = some o →
      ∃ e, (sq_assign p shortest n xs)[i]? = some e ∧
        (p o = false → e = (-1, false, false)) ∧
        (p o = true → e.2.1 = (shortest || cap_finite o) ∧
          e.2.2 = decide (o.max_frames ≠ INT64_MAX)) := by
  induction xs with
  | nil => intro n i o h; simp at h
  | cons x rest ih =>
    intro n i o h
    cases i with
    | zero =>
      simp only [List.getElem?_cons_zero, Option.some_inj] at h
      subst h
      cases hpx : p x
      · exact ⟨(-1, false, false), by simp [sq_assign, hpx], fun _ => rfl,
          fun ht => nomatch ht⟩
      · refine ⟨((n : Int), shortest || cap_finite x,
            decide (x.max_frames ≠ INT64_MAX)),
          by simp [sq_assign, hpx], fun hf => ?_, fun _ => ⟨rfl, rfl⟩⟩
        exact absurd hf (by simp)
    | succ j =>
      simp only [List.getElem?_cons_succ] at h
      cases hpx : p x
      · obtain ⟨e, he, h1, h2⟩ := ih n j o h
        exact ⟨e, by simp [sq_assign, hpx, he], h1, h2⟩
      · obtain ⟨e, he, h1, h2⟩ := ih (n + 1) j o h
        exact ⟨e, by simp [sq_assign, hpx, he], h1, h2⟩

/-- Entries of either registration list of `setup_sync_queues` (the real
assignment when the queue is allocated, all `-1` otherwise): a registered
entry (index ≠ -1) carries the `shortest || max_frames < INT64_MAX`
limiting flag and the cap marker. -/
theorem sq_entry_spec (p : OutStreamCfg → Bool) (shortest alloc : Bool)
    (xs : List OutStreamCfg) (i : Nat) (o : OutStreamCfg)
    (h : xs[i]? = some o) :
    ∃ e, (if alloc then sq_assign p shortest 0 xs
          else xs.map fun _ => ((-1 : Int), false, false))[i]? = some e ∧
      (e.1 ≠ -1 → e.2.1 = (shortest || cap_finite o) ∧
        e.2.2 = decide (o.max_frames ≠ INT64_MAX)) := by
  cases alloc
  · refine ⟨(-1, false, false), ?_, fun hne => absurd rfl hne⟩
    have hlen : i < xs.length := by
      by_contra hc
      rw [List.getElem?_eq_none (le_of_not_lt hc)] at h
      cases h
    simp [List.getElem?_map, h, hlen]
  · obtain ⟨e, he, h1, h2⟩ := sq_assign_spec p shortest xs 0 i o h
    refine ⟨e, by simpa using he, fun hne => ?_⟩
    cases hpo : p o
    · rw [h1 hpo] at hne
      exact absurd rfl hne
    · exact h2 hpo

/-- Counterexample to C10 as stated.  Output with `shortest` unset, one
attachment stream with `max_frames = 5` and one interleaved streamcopy
video stream without a cap.  No interleaved stream has a finite cap and
shortest is off, so by the claim no sync queue may be allocated and all
indices must stay -1 — yet the code allocates the muxing sync queue (the
overall `limit_frames` flag also counts the non-interleaved attachment) and
registers the video stream at index 0. -/
theorem claim_c10_counterexample :
    ¬sq_claim_condition false
      [⟨.attachment, false, 5⟩, ⟨.video, false, INT64_MAX⟩] ∧
    (setup_sync_queues false
      [⟨.attachment, false, 5⟩, ⟨.video, false, INT64_MAX⟩]).sq_mux = true ∧
    (setup_sync_queues false
      [⟨.attachment, false, 5⟩, ⟨.video, false, INT64_MAX⟩]).streams =
      [⟨-1, -1, false, false, false, false⟩,
       ⟨-1, 0, false, false, false, false⟩] := by
  refine ⟨by decide, by decide, by decide⟩

/-- C10 as amended: `setup_sync_queues` allocates no sync queue and leaves
every stream's `sq_idx_encode` and `sq_idx_mux` at -1 unless the shortest
policy is set with more than one interleaved (non-attachment) stream, or at
least one interleaved stream exists and at least one stream — interleaved
or not — has a finite `max_frames` cap; when queues are created, a
registered stream carries the limiting flag exactly when shortest is set or
that stream's `max_frames` is finite, and `sq_limit_frames` is applied to a
stream exactly when its `max_frames` is finite. -/
theorem claim_c10_amended (shortest : Bool) (streams : List OutStreamCfg) :
    (¬((1 < streams.countP is_interleaved ∧ shortest = true) ∨
       (0 < streams.countP is_interleaved ∧ streams.any cap_finite = true)) →
      setup_sync_queues shortest streams =
        ⟨false, false,
         streams.map fun _ => ⟨-1, -1, false, false, false, false⟩⟩) ∧
    (∀ (i : Nat) (o : OutStreamCfg), streams[i]? = some o →
      ∃ r : OstSQ,
        (setup_sync_queues shortest streams).streams[i]? = some r ∧
        (r.sq_idx_encode ≠ -1 →
          r.enc_limiting = (shortest || cap_finite o) ∧
          r.enc_limit_applied = decide (o.max_frames ≠ INT64_MAX)) ∧
        (r.sq_idx_mux ≠ -1 →
          r.mux_limiting = (shortest || cap_finite o) ∧
          r.mux_limit_applied = decide (o.max_frames ≠ INT64_MAX))) := by
  constructor
  · intro h
    simp only [setup_sync_queues]
    rw [if_pos h]
  · intro i o hio
    simp only [setup_sync_queues]
    split
    case isTrue hgate =>
      refine ⟨⟨-1, -1, false, false, false, false⟩, ?_,
        fun hne => absurd rfl hne, fun hne => absurd rfl hne⟩
      have hlen : i < streams.length := by
        by_contra hc
        rw [List.getElem?_eq_none (le_of_not_lt hc)] at hio
        cases hio
      simp [hio, hlen]
    case isFalse hgate =>
      obtain ⟨e, he, hespec⟩ :=
        sq_entry_spec is_av_enc shortest _ streams i o hio
      obtain ⟨m, hm, hmspec⟩ :=
        sq_entry_spec is_interleaved shortest _ streams i o hio
      exact ⟨⟨e.1, m.1, e.2.1, e.2.2, m.2.1, m.2.2⟩,
        zipWith_getElem?_some _ _ _ i e m he hm, hespec, hmspec⟩

/-- Witness for C10 as amended: a single capped interleaved video stream is
registered in the muxing sync queue with the limiting flag and the cap
applied; and an empty output gets no queues. -/
theorem claim_c10_amended_witness :
    (∃ r : OstSQ,
      (setup_sync_queues false [⟨.video, false, 5⟩]).streams[0]? =
        some r ∧
      (r.sq_idx_encode ≠ -1 →
        r.enc_limiting = (false || cap_finite ⟨.video, false, 5⟩) ∧
        r.enc_limit_applied =
          decide ((5 : Int) ≠ INT64_MAX)) ∧
      (r.sq_idx_mux ≠ -1 →
        r.mux_limiting = (false || cap_finite ⟨.video, false, 5⟩) ∧
        r.mux_limit_applied = decide ((5 : Int) ≠ INT64_MAX))) ∧
    setup_sync_queues false [] = ⟨false, false, []⟩ :=
  ⟨(claim_c10_amended false [⟨.video, false, 5⟩]).2 0 ⟨.video, false, 5⟩ rfl,
   (claim_c10_amended false []).1 (by decide)⟩

end FFmpeg
